import Mathlib

/-!
Verification of the CVRP simulated-annealing engine (`sa_cvrp_logic.py`).

Shallow embedding conventions:
* Python floats are modelled as `ℚ`; the float library functions `math.sqrt`,
  `math.atan2` and `math.exp` are abstracted as function parameters
  (`sqrtQ`, `atan2Q`, `expQ`), since no verified property depends on their
  numeric values beyond `exp 0 = 1` (stated as an explicit hypothesis where
  used).
* `random.randint(a, b)` (inclusive bounds, `a ≤ b` at every call site that
  is reached) is modelled by an arbitrary natural draw `d` normalised to
  `a + d % (b - a + 1)`; `random.choice` over a list of `n` operators is
  modelled by `d % n`; `random.random()` is an arbitrary rational draw.
* `next(p for p in self.puntos if p.id == pid)` is totalised with a default
  point of zero demand; the Python code raises `StopIteration` when the id is
  absent, a case excluded by the hypotheses of the theorems that need it.
* The distance matrix is represented as a function `ℕ → ℕ → ℚ` (the Python
  code indexes the matrix by point id).
-/

/-- `Punto` dataclass: a demand location. -/
structure Punto where
  id : ℕ
  nombre : String
  direccion : String
  latitud : ℚ
  longitud : ℚ
  demanda : ℚ
deriving DecidableEq, Repr

/-- `Ruta` dataclass: one vehicle's closed tour with derived scalars. -/
structure Ruta where
  puntos : List ℕ
  distancia : ℚ
  carga : ℚ
  tiempo : ℚ
deriving DecidableEq, Repr

/-- Default point used to totalise the `next(...)` lookups. -/
def puntoDefecto (pid : ℕ) : Punto :=
  { id := pid, nombre := "", direccion := "", latitud := 0, longitud := 0, demanda := 0 }

/-- `next(p for p in puntos if p.id == pid)`, totalised. -/
def buscar_punto (puntos : List Punto) (pid : ℕ) : Punto :=
  (puntos.find? (fun p => p.id == pid)).getD (puntoDefecto pid)

/-- The interior of a route's id sequence: `puntos_ids[1:-1]`. -/
def interior_ruta (l : List ℕ) : List ℕ :=
  (l.drop 1).dropLast

/-- Sum of consecutive-pair distance lookups
(`for i in range(len(puntos_ids) - 1): distancia += m[ids[i]][ids[i+1]]`). -/
def distancia_lista (m : ℕ → ℕ → ℚ) : List ℕ → ℚ
  | [] => 0
  | [_] => 0
  | a :: b :: rest => m a b + distancia_lista m (b :: rest)

/-- Sum of interior demands (`for pid in puntos_ids[1:-1]: carga += demanda`). -/
def carga_lista (puntos : List Punto) (ids : List ℕ) : ℚ :=
  ((interior_ruta ids).map (fun pid => (buscar_punto puntos pid).demanda)).sum

/-- `SimulatedAnnealingCVRP._crear_ruta`: build a `Ruta` from an id sequence,
with distance, load and time recomputed. -/
def crear_ruta (m : ℕ → ℕ → ℚ) (puntos : List Punto) (ids : List ℕ) : Ruta :=
  { puntos := ids
    distancia := distancia_lista m ids
    carga := carga_lista puntos ids
    tiempo := distancia_lista m ids / (264 / 100) }

/-- `SimulatedAnnealingCVRP.calcular_costo_total`: sum of route distances. -/
def calcular_costo_total (rutas : List Ruta) : ℚ :=
  (rutas.map Ruta.distancia).sum

/-- `SimulatedAnnealingCVRP.criterio_aceptacion` (Metropolis rule); `expQ`
models `math.exp`, `u` models the `random.random()` draw. -/
def criterio_aceptacion (expQ : ℚ → ℚ) (costo_actual costo_vecino temperatura u : ℚ) :
    Bool :=
  if costo_vecino < costo_actual then
    true
  else
    decide (u < expQ (-(costo_vecino - costo_actual) / temperatura))

/-- Engine state established by `SimulatedAnnealingCVRP.__init__` (the mutable
run-tracking fields `historial_*`, `mejor_*` live in the run state below). -/
structure SimulatedAnnealingCVRP where
  puntos : List Punto
  capacidad_vehiculo : ℚ
  num_vehiculos : ℤ
  punto_inicio_id : ℕ
  matriz_distancias : ℕ → ℕ → ℚ
  temperatura_inicial : ℚ
  temperatura_minima : ℚ
  factor_enfriamiento : ℚ
  iteraciones_por_temperatura : ℕ

/-- `SimulatedAnnealingCVRP._calcular_matriz_distancias`: pairwise planar
distances, zero diagonal; `sqrtQ` models `math.sqrt`. Out-of-range indices
give 0 (Python would raise `IndexError` there). -/
def calcular_matriz_distancias (sqrtQ : ℚ → ℚ) (puntos : List Punto) : ℕ → ℕ → ℚ :=
  fun i j =>
    if i < puntos.length ∧ j < puntos.length ∧ i ≠ j then
      let p := puntos.getD i (puntoDefecto 0)
      let q := puntos.getD j (puntoDefecto 0)
      sqrtQ ((q.latitud - p.latitud) ^ 2 + (q.longitud - p.longitud) ^ 2) * 111
    else 0

/-- `SimulatedAnnealingCVRP.__init__`: stores the configuration, builds the
distance matrix and sets the calibrated SA parameters. The Python body
performs no validation of its arguments. -/
def SimulatedAnnealingCVRP_init (sqrtQ : ℚ → ℚ) (puntos : List Punto)
    (capacidad_vehiculo : ℚ) (num_vehiculos : ℤ) (punto_inicio_id : ℕ) :
    SimulatedAnnealingCVRP :=
  { puntos := puntos
    capacidad_vehiculo := capacidad_vehiculo
    num_vehiculos := num_vehiculos
    punto_inicio_id := punto_inicio_id
    matriz_distancias := calcular_matriz_distancias sqrtQ puntos
    temperatura_inicial := 15000
    temperatura_minima := 1 / 100
    factor_enfriamiento := 985 / 1000
    iteraciones_por_temperatura := 150 }

/-- Fuel-indexed model of the cooling loop
`while temp > temperatura_minima: temp *= factor`: returns `true` iff the
loop exits within `fuel` cooling steps. -/
def termina_enfriamiento (temperatura_minima factor : ℚ) : ℕ → ℚ → Bool
  | 0, temp => decide (¬ temperatura_minima < temp)
  | fuel + 1, temp =>
    if temperatura_minima < temp then
      termina_enfriamiento temperatura_minima factor fuel (temp * factor)
    else true

/-- Number of cooling stages executed by the loop
`while temp > temperatura_minima: ... ; temp *= factor` within `fuel` steps
(the pre-computation of `total_iteraciones` counts
`iteraciones_por_temperatura` per such stage). -/
def contar_etapas (temperatura_minima factor : ℚ) : ℕ → ℚ → ℕ
  | 0, _ => 0
  | fuel + 1, temp =>
    if temperatura_minima < temp then
      contar_etapas temperatura_minima factor fuel (temp * factor) + 1
    else 0

/-- Interior id multiset of one route. -/
def interiorMS (r : Ruta) : Multiset ℕ :=
  (interior_ruta r.puntos : Multiset ℕ)

/-- Coverage of a solution: the multiset of interior point ids over all its
routes. -/
def cobertura (rutas : List Ruta) : Multiset ℕ :=
  (rutas.map interiorMS).sum

/-- The sweep loop of `generar_solucion_inicial` (lines 282-317): fold over
the angularly ordered points, accumulating `(rutas, ruta_actual, carga_actual)`. -/
def barrido (m : ℕ → ℕ → ℚ) (puntos : List Punto) (capacidad_vehiculo : ℚ)
    (num_vehiculos : ℤ) (punto_inicio_id : ℕ) (capacidad_objetivo : ℚ) :
    List Punto → List Ruta → List ℕ → ℚ → List Ruta × List ℕ × ℚ
  | [], rutas, ruta_actual, carga_actual => (rutas, ruta_actual, carga_actual)
  | punto :: resto, rutas, ruta_actual, carga_actual =>
    let vehiculos_restantes : ℤ := num_vehiculos - rutas.length
    let debe_cerrar : Bool :=
      decide (capacidad_vehiculo < carga_actual + punto.demanda)
        || (decide (1 < vehiculos_restantes)
            && decide (capacidad_objetivo * (85 / 100) ≤ carga_actual))
    if debe_cerrar && decide (1 < ruta_actual.length) then
      if 1 < vehiculos_restantes then
        barrido m puntos capacidad_vehiculo num_vehiculos punto_inicio_id
          capacidad_objetivo resto
          (rutas ++ [crear_ruta m puntos (ruta_actual ++ [punto_inicio_id])])
          [punto_inicio_id, punto.id] punto.demanda
      else
        barrido m puntos capacidad_vehiculo num_vehiculos punto_inicio_id
          capacidad_objetivo resto rutas (ruta_actual ++ [punto.id])
          (carga_actual + punto.demanda)
    else
      barrido m puntos capacidad_vehiculo num_vehiculos punto_inicio_id
        capacidad_objetivo resto rutas (ruta_actual ++ [punto.id])
        (carga_actual + punto.demanda)

/-- Closing of the final in-progress route (lines 320-322). -/
def cerrar_barrido (m : ℕ → ℕ → ℚ) (puntos : List Punto) (punto_inicio_id : ℕ)
    (rutas : List Ruta) (ruta_actual : List ℕ) : List Ruta :=
  if 1 < ruta_actual.length then
    rutas ++ [crear_ruta m puntos (ruta_actual ++ [punto_inicio_id])]
  else rutas

/-- The `(punto, angulo, distancia)` triples of the sweep (lines 253-266). -/
def puntos_con_angulo_de (atan2Q : ℚ → ℚ → ℚ) (sqrtQ : ℚ → ℚ)
    (puntos : List Punto) (punto_inicio_id : ℕ) : List (Punto × ℚ × ℚ) :=
  let punto_inicio := buscar_punto puntos punto_inicio_id
  (puntos.filter (fun p => p.id ≠ punto_inicio_id)).map (fun punto =>
    let dx := punto.longitud - punto_inicio.longitud
    let dy := punto.latitud - punto_inicio.latitud
    (punto, atan2Q dy dx, sqrtQ (dx ^ 2 + dy ^ 2)))

/-- The sort key of line 270: ascending angle, ties by ascending distance. -/
def clave_barrido (x y : Punto × ℚ × ℚ) : Bool :=
  decide (x.2.1 < y.2.1) || (decide (x.2.1 = y.2.1) && decide (x.2.2 ≤ y.2.2))

/-- The points in angular sweep order (sorted triples, projected back to
points). -/
def puntos_ordenados (atan2Q : ℚ → ℚ → ℚ) (sqrtQ : ℚ → ℚ)
    (puntos : List Punto) (punto_inicio_id : ℕ) : List Punto :=
  ((puntos_con_angulo_de atan2Q sqrtQ puntos punto_inicio_id).mergeSort
    clave_barrido).map (fun x => x.1)

/-- `SimulatedAnnealingCVRP.generar_solucion_inicial`: sweep heuristic.
`atan2Q` and `sqrtQ` model `math.atan2` / `math.sqrt` (used only inside the
sort key). -/
def generar_solucion_inicial (atan2Q : ℚ → ℚ → ℚ) (sqrtQ : ℚ → ℚ)
    (m : ℕ → ℕ → ℚ) (puntos : List Punto) (capacidad_vehiculo : ℚ)
    (num_vehiculos : ℤ) (punto_inicio_id : ℕ) : List Ruta :=
  let ordenados := puntos_ordenados atan2Q sqrtQ puntos punto_inicio_id
  let demanda_total := (ordenados.map (fun p => p.demanda)).sum
  let capacidad_objetivo := demanda_total / (num_vehiculos : ℚ)
  let res := barrido m puntos capacidad_vehiculo num_vehiculos punto_inicio_id
    capacidad_objetivo ordenados [] [punto_inicio_id] 0
  cerrar_barrido m puntos punto_inicio_id res.1 res.2.1

/-- Validation errors, modelled as tagged values in place of the Python
formatted strings. -/
inductive ErrorValidacion where
  | duplicado (pid : ℕ)
  | no_visitados (faltantes : Finset ℕ)
  | excede_capacidad (idx : ℕ) (carga capacidad : ℚ)
  | exceso_vehiculos (usados : ℕ) (disponibles : ℤ)
deriving DecidableEq

/-- The duplicate scan of `validar_solucion` over one route's interior:
appends a `duplicado` error for every id already seen and records each id. -/
def escanea_duplicados : List ℕ → List ErrorValidacion × Finset ℕ →
    List ErrorValidacion × Finset ℕ
  | [], acc => acc
  | pid :: resto, (errores, visitados) =>
    escanea_duplicados resto
      (if pid ∈ visitados then errores ++ [.duplicado pid] else errores,
       insert pid visitados)

/-- `SimulatedAnnealingCVRP.validar_solucion`: coverage, capacity and fleet
checks, reported independently. -/
def validar_solucion (puntos : List Punto) (capacidad_vehiculo : ℚ)
    (num_vehiculos : ℤ) (punto_inicio_id : ℕ) (rutas : List Ruta) :
    Bool × List ErrorValidacion :=
  let paso1 := rutas.foldl
    (fun acc ruta => escanea_duplicados (interior_ruta ruta.puntos) acc) ([], ∅)
  let visitados := paso1.2
  let esperados : Finset ℕ :=
    ((puntos.filter (fun p => p.id ≠ punto_inicio_id)).map Punto.id).toFinset
  let faltantes := esperados \ visitados
  let errores := if faltantes ≠ ∅ then paso1.1 ++ [.no_visitados faltantes] else paso1.1
  let errores := errores ++
    (rutas.enum.filter (fun x => capacidad_vehiculo < x.2.carga)).map
      (fun x => .excede_capacidad (x.1 + 1) x.2.carga capacidad_vehiculo)
  let errores := if (rutas.length : ℤ) > num_vehiculos then
      errores ++ [.exceso_vehiculos rutas.length num_vehiculos]
    else errores
  (errores.isEmpty, errores)

/-- Coverage-violation errors (duplicates or omissions). -/
def es_error_cobertura : ErrorValidacion → Bool
  | .duplicado _ => true
  | .no_visitados _ => true
  | _ => false

/-- Coverage of the partial sweep state: emitted routes plus the open route
(whose leading depot is excluded; it has no trailing depot yet). -/
def cobertura_abierta (rutas : List Ruta) (ruta_actual : List ℕ) : Multiset ℕ :=
  cobertura rutas + (ruta_actual.drop 1 : Multiset ℕ)

/-- Concrete three-point instance (depot id 0) used by witnesses. -/
def puntosEjemplo : List Punto :=
  [{ id := 0, nombre := "", direccion := "", latitud := 0, longitud := 0, demanda := 0 },
   { id := 1, nombre := "", direccion := "", latitud := 1, longitud := 0, demanda := 5 },
   { id := 2, nombre := "", direccion := "", latitud := 0, longitud := 1, demanda := 7 }]

/-- The random draws consumed by one `generar_vecino` call: `op` models the
`random.choice` over the operator list, `d1`-`d4` the `random.randint` calls
of the chosen branch (normalised to the inclusive bounds at each site). -/
structure Draws where
  op : ℕ
  d1 : ℕ
  d2 : ℕ
  d3 : ℕ
  d4 : ℕ

/-- Default route used to totalise list indexing (every index reached is in
range). -/
def rutaDefecto : Ruta :=
  { puntos := [], distancia := 0, carga := 0, tiempo := 0 }

/-- The `intra_swap` branch (lines 452-472): swap two drawn positions of one
drawn route; positions are `randint(1, len - 3)`. -/
def intra_swap (m : ℕ → ℕ → ℚ) (puntos : List Punto) (sol : List Ruta)
    (d1 d2 d3 : ℕ) : List Ruta :=
  if 0 < sol.length then
    let ruta_idx := d1 % sol.length
    let ruta := sol.getD ruta_idx rutaDefecto
    if 3 < ruta.puntos.length then
      let i := 1 + d2 % (ruta.puntos.length - 3)
      let j := 1 + d3 % (ruta.puntos.length - 3)
      let intercambiada :=
        (ruta.puntos.set i (ruta.puntos.getD j 0)).set j (ruta.puntos.getD i 0)
      sol.set ruta_idx (crear_ruta m puntos intercambiada)
    else sol
  else sol

/-- The `inter_swap` branch (lines 474-510): swap one drawn interior point
between two drawn distinct routes, only if both post-swap loads fit. -/
def inter_swap (m : ℕ → ℕ → ℚ) (puntos : List Punto) (capacidad_vehiculo : ℚ)
    (sol : List Ruta) (d1 d2 d3 d4 : ℕ) : List Ruta :=
  if 2 ≤ sol.length then
    let r1_idx := d1 % sol.length
    let r2_idx := d2 % sol.length
    if r1_idx ≠ r2_idx then
      let r1 := sol.getD r1_idx rutaDefecto
      let r2 := sol.getD r2_idx rutaDefecto
      if 2 < r1.puntos.length ∧ 2 < r2.puntos.length then
        let i := 1 + d3 % (r1.puntos.length - 2)
        let j := 1 + d4 % (r2.puntos.length - 2)
        let punto_i := buscar_punto puntos (r1.puntos.getD i 0)
        let punto_j := buscar_punto puntos (r2.puntos.getD j 0)
        let nueva_carga_r1 := r1.carga - punto_i.demanda + punto_j.demanda
        let nueva_carga_r2 := r2.carga - punto_j.demanda + punto_i.demanda
        if nueva_carga_r1 ≤ capacidad_vehiculo
            ∧ nueva_carga_r2 ≤ capacidad_vehiculo then
          let p1 := r1.puntos.set i (r2.puntos.getD j 0)
          let p2 := r2.puntos.set j (r1.puntos.getD i 0)
          (sol.set r1_idx (crear_ruta m puntos p1)).set r2_idx
            (crear_ruta m puntos p2)
        else sol
      else sol
    else sol
  else sol

/-- The `two_opt` branch (lines 512-532): reverse the drawn segment
`[i, j]` (`i = randint(1, len-3)`, `j = randint(i+1, len-2)`) of one drawn
route. -/
def two_opt (m : ℕ → ℕ → ℚ) (puntos : List Punto) (sol : List Ruta)
    (d1 d2 d3 : ℕ) : List Ruta :=
  if 0 < sol.length then
    let ruta_idx := d1 % sol.length
    let ruta := sol.getD ruta_idx rutaDefecto
    if 4 < ruta.puntos.length then
      let i := 1 + d2 % (ruta.puntos.length - 3)
      let j := (i + 1) + d3 % (ruta.puntos.length - 2 - i)
      let invertida := ruta.puntos.take i
        ++ ((ruta.puntos.drop i).take (j + 1 - i)).reverse
        ++ ruta.puntos.drop (j + 1)
      sol.set ruta_idx (crear_ruta m puntos invertida)
    else sol
  else sol

/-- The `relocate` branch (lines 534-567): move one drawn interior point of
the drawn source route (needing > 3 ids) to a drawn interior position of the
drawn distinct destination route, only if the destination load fits. -/
def relocate (m : ℕ → ℕ → ℚ) (puntos : List Punto) (capacidad_vehiculo : ℚ)
    (sol : List Ruta) (d1 d2 d3 d4 : ℕ) : List Ruta :=
  if 2 ≤ sol.length then
    let r1_idx := d1 % sol.length
    let r2_idx := d2 % sol.length
    if r1_idx ≠ r2_idx then
      let r1 := sol.getD r1_idx rutaDefecto
      let r2 := sol.getD r2_idx rutaDefecto
      if 3 < r1.puntos.length then
        let i := 1 + d3 % (r1.puntos.length - 2)
        let punto_id := r1.puntos.getD i 0
        let punto := buscar_punto puntos punto_id
        if r2.carga + punto.demanda ≤ capacidad_vehiculo then
          let p1 := r1.puntos.eraseIdx i
          let pos := 1 + d4 % (r2.puntos.length - 1)
          let p2 := r2.puntos.insertIdx pos punto_id
          (sol.set r1_idx (crear_ruta m puntos p1)).set r2_idx
            (crear_ruta m puntos p2)
        else sol
      else sol
    else sol
  else sol

/-- The scan of lines 579-597: first adjacent pair (in the load-sorted
enumeration) whose combined load fits. -/
def buscar_par_consolidar (capacidad_vehiculo : ℚ) :
    List (ℕ × Ruta) → Option ((ℕ × Ruta) × (ℕ × Ruta))
  | x1 :: x2 :: resto =>
    if x1.2.carga + x2.2.carga ≤ capacidad_vehiculo then some (x1, x2)
    else buscar_par_consolidar capacidad_vehiculo (x2 :: resto)
  | _ => none

/-- The `consolidate` branch (lines 569-597): merge the first mergeable
adjacent pair of the load-sorted route enumeration into one route. -/
def consolidate (m : ℕ → ℕ → ℚ) (puntos : List Punto) (capacidad_vehiculo : ℚ)
    (sol : List Ruta) : List Ruta :=
  if 2 ≤ sol.length then
    let rutas_ordenadas := sol.enum.mergeSort
      (fun a b => decide (a.2.carga ≤ b.2.carga))
    match buscar_par_consolidar capacidad_vehiculo rutas_ordenadas with
    | some (x1, x2) =>
      let puntos_combinados := x1.2.puntos.dropLast ++ x2.2.puntos.drop 1
      let ruta_combinada := crear_ruta m puntos puntos_combinados
      (sol.enum.filter (fun jr => jr.1 ≠ x1.1 ∧ jr.1 ≠ x2.1)).map Prod.snd
        ++ [ruta_combinada]
    | none => sol
  else sol

/-- `SimulatedAnnealingCVRP.generar_vecino`: copy the solution (identity on
immutable values) and dispatch on a uniformly drawn operator;
`consolidate` joins the list only when more than 70 percent of the fleet is
in use. -/
def generar_vecino (m : ℕ → ℕ → ℚ) (puntos : List Punto)
    (capacidad_vehiculo : ℚ) (num_vehiculos : ℤ) (sol : List Ruta)
    (dr : Draws) : List Ruta :=
  let operadores :=
    4 + (if (num_vehiculos : ℚ) * (7 / 10) < (sol.length : ℚ) then 1 else 0)
  match dr.op % operadores with
  | 0 => intra_swap m puntos sol dr.d1 dr.d2 dr.d3
  | 1 => inter_swap m puntos capacidad_vehiculo sol dr.d1 dr.d2 dr.d3 dr.d4
  | 2 => two_opt m puntos sol dr.d1 dr.d2 dr.d3
  | 3 => relocate m puntos capacidad_vehiculo sol dr.d1 dr.d2 dr.d3 dr.d4
  | _ => consolidate m puntos capacidad_vehiculo sol

/-- The randomness consumed by one trial iteration: the operator/position
draws of `generar_vecino` and the uniform draw of `criterio_aceptacion`. -/
structure TrialRand where
  dr : Draws
  u : ℚ

/-- The mutable run state of `ejecutar` (current and best solution, their
costs, and the global iteration counter). The history lists and the progress
callback are I/O bookkeeping outside the model. -/
structure SAState where
  solucion_actual : List Ruta
  costo_actual : ℚ
  mejor_solucion : List Ruta
  mejor_costo : ℚ
  iteracion : ℕ

/-- One trial iteration of the inner loop (lines 732-756): propose a
neighbor, score it, Metropolis-accept, snapshot a new best on improvement,
and count the iteration. -/
def paso_sa (expQ : ℚ → ℚ) (e : SimulatedAnnealingCVRP) (rand : ℕ → TrialRand)
    (temperatura : ℚ) (st : SAState) : SAState :=
  let r := rand st.iteracion
  let solucion_vecina := generar_vecino e.matriz_distancias e.puntos
    e.capacidad_vehiculo e.num_vehiculos st.solucion_actual r.dr
  let costo_vecino := calcular_costo_total solucion_vecina
  if criterio_aceptacion expQ st.costo_actual costo_vecino temperatura r.u then
    if costo_vecino < st.mejor_costo then
      { solucion_actual := solucion_vecina
        costo_actual := costo_vecino
        mejor_solucion := solucion_vecina
        mejor_costo := costo_vecino
        iteracion := st.iteracion + 1 }
    else
      { st with
        solucion_actual := solucion_vecina
        costo_actual := costo_vecino
        iteracion := st.iteracion + 1 }
  else
    { st with iteracion := st.iteracion + 1 }

/-- One temperature stage: `iteraciones_por_temperatura` trials at fixed
temperature. -/
def etapa_sa (expQ : ℚ → ℚ) (e : SimulatedAnnealingCVRP) (rand : ℕ → TrialRand)
    (temperatura : ℚ) (st : SAState) : SAState :=
  (List.range e.iteraciones_por_temperatura).foldl
    (fun s _ => paso_sa expQ e rand temperatura s) st

/-- The outer cooling loop (fuel-indexed model of
`while temperatura > temperatura_minima`). -/
def bucle_sa (expQ : ℚ → ℚ) (e : SimulatedAnnealingCVRP)
    (rand : ℕ → TrialRand) : ℕ → ℚ → SAState → SAState
  | 0, _, st => st
  | fuel + 1, temperatura, st =>
    if e.temperatura_minima < temperatura then
      bucle_sa expQ e rand fuel (temperatura * e.factor_enfriamiento)
        (etapa_sa expQ e rand temperatura st)
    else st

/-- Phase 1 of `ejecutar` (lines 691-707): the state seeded with the sweep
solution as both current and best. -/
def estado_inicial (atan2Q : ℚ → ℚ → ℚ) (sqrtQ : ℚ → ℚ)
    (e : SimulatedAnnealingCVRP) : SAState :=
  let solucion_actual := generar_solucion_inicial atan2Q sqrtQ
    e.matriz_distancias e.puntos e.capacidad_vehiculo e.num_vehiculos
    e.punto_inicio_id
  let costo_actual := calcular_costo_total solucion_actual
  { solucion_actual := solucion_actual
    costo_actual := costo_actual
    mejor_solucion := solucion_actual
    mejor_costo := costo_actual
    iteracion := 0 }

/-- The statistics record built at lines 783-790 (history lists omitted). -/
structure Estadisticas where
  iteraciones_totales : ℕ
  costo_inicial : ℚ
  costo_final : ℚ
  numero_rutas : ℕ

/-- The pre-computed total iteration count of lines 711-716: stages of the
simulated cooling schedule times iterations per stage. -/
def total_iteraciones_previstas (e : SimulatedAnnealingCVRP) (fuel : ℕ) : ℕ :=
  contar_etapas e.temperatura_minima e.factor_enfriamiento fuel
      e.temperatura_inicial
    * e.iteraciones_por_temperatura

/-- `SimulatedAnnealingCVRP.ejecutar`: run the annealing loop from the sweep
solution and return best solution, best cost and statistics. Note line 785:
`costo_inicial` is recomputed by calling `generar_solucion_inicial` again. -/
def ejecutar (expQ : ℚ → ℚ) (atan2Q : ℚ → ℚ → ℚ) (sqrtQ : ℚ → ℚ)
    (e : SimulatedAnnealingCVRP) (rand : ℕ → TrialRand) (fuel : ℕ) :
    List Ruta × ℚ × Estadisticas :=
  let final := bucle_sa expQ e rand fuel e.temperatura_inicial
    (estado_inicial atan2Q sqrtQ e)
  (final.mejor_solucion, final.mejor_costo,
    { iteraciones_totales := final.iteracion
      costo_inicial := calcular_costo_total (generar_solucion_inicial atan2Q
        sqrtQ e.matriz_distancias e.puntos e.capacidad_vehiculo
        e.num_vehiculos e.punto_inicio_id)
      costo_final := final.mejor_costo
      numero_rutas := final.mejor_solucion.length })

lemma termina_enfriamiento_of_pow (Tmin α : ℚ) :
    ∀ (n : ℕ) (T : ℚ), T * α ^ n ≤ Tmin → termina_enfriamiento Tmin α n T = true := by
  intro n
  induction n with
  | zero =>
    intro T h
    simp only [pow_zero, mul_one] at h
    simp [termina_enfriamiento, not_lt, h]
  | succ k ih =>
    intro T h
    rw [termina_enfriamiento]
    split
    · apply ih
      calc T * α * α ^ k = T * α ^ (k + 1) := by ring
        _ ≤ Tmin := h
    · rfl

/-- C4: whenever the candidate cost is ≤ the current cost, the Metropolis
acceptance criterion returns `True` for every uniform draw in `[0, 1)`
(the equal-cost case lands in the `else` branch where `exp 0 = 1 > u`). -/
theorem criterio_aceptacion_acepta_no_peor (expQ : ℚ → ℚ) (hexp : expQ 0 = 1)
    (costo_actual costo_vecino temperatura u : ℚ) (hT : 0 < temperatura)
    (hle : costo_vecino ≤ costo_actual) (hu0 : 0 ≤ u) (hu1 : u < 1) :
    criterio_aceptacion expQ costo_actual costo_vecino temperatura u = true := by
  unfold criterio_aceptacion
  rcases lt_or_eq_of_le hle with h | h
  · simp [h]
  · subst h
    simp [sub_self, neg_zero, zero_div, hexp, hu1]

/-- Witness for C4 at a concrete equal-cost input. -/
theorem criterio_aceptacion_acepta_no_peor_witness :
    criterio_aceptacion (fun _ => 1) 5 5 1 0 = true :=
  criterio_aceptacion_acepta_no_peor (fun _ => 1) rfl 5 5 1 0 (by norm_num)
    (le_refl 5) (le_refl 0) (by norm_num)

/-- C5: constructing the engine with an empty point set, a non-positive
capacity, a non-positive fleet size and a depot id absent from the point set
completes without any error and stores the invalid values unchanged — the
constructor performs no validation, contradicting its own docstring
(`Raises ValueError ...`). -/
theorem init_acepta_configuracion_invalida :
    (SimulatedAnnealingCVRP_init (fun _ => 0) [] (-1) 0 7).puntos = []
    ∧ (SimulatedAnnealingCVRP_init (fun _ => 0) [] (-1) 0 7).capacidad_vehiculo = -1
    ∧ (SimulatedAnnealingCVRP_init (fun _ => 0) [] (-1) 0 7).num_vehiculos = 0
    ∧ (SimulatedAnnealingCVRP_init (fun _ => 0) [] (-1) 0 7).punto_inicio_id = 7 :=
  ⟨rfl, rfl, rfl, rfl⟩

/-- C6: for `0 < Tmin < T`, `0 < α < 1`, after finitely many cooling stages
the temperature drops to or below the minimum, so the annealing loop
terminates (there is enough fuel for the cooling loop to exit). -/
theorem enfriamiento_termina (T Tmin α : ℚ) (hTmin : 0 < Tmin) (hT : Tmin < T)
    (hα0 : 0 < α) (hα1 : α < 1) :
    ∃ n, T * α ^ n ≤ Tmin ∧ termina_enfriamiento Tmin α n T = true := by
  have hT0 : 0 < T := lt_trans hTmin hT
  obtain ⟨n, hn⟩ := exists_pow_lt_of_lt_one (div_pos hTmin hT0) hα1
  have h1 : α ^ n * T < Tmin := (lt_div_iff₀ hT0).mp hn
  have h2 : T * α ^ n ≤ Tmin := by rw [mul_comm]; exact le_of_lt h1
  exact ⟨n, h2, termina_enfriamiento_of_pow Tmin α n T h2⟩

/-- Witness for C6 at the engine's calibrated parameters. -/
theorem enfriamiento_termina_witness :
    ∃ n, (15000 : ℚ) * (985 / 1000) ^ n ≤ 1 / 100
      ∧ termina_enfriamiento (1 / 100) (985 / 1000) n 15000 = true :=
  enfriamiento_termina 15000 (1 / 100) (985 / 1000) (by norm_num) (by norm_num)
    (by norm_num) (by norm_num)

lemma interior_ruta_concat (ra : List ℕ) (x : ℕ) :
    interior_ruta (ra ++ [x]) = ra.drop 1 := by
  cases ra with
  | nil => rfl
  | cons a t => simp [interior_ruta, List.dropLast_concat]

lemma cobertura_append_una (rutas : List Ruta) (r : Ruta) :
    cobertura (rutas ++ [r]) = cobertura rutas + interiorMS r := by
  simp [cobertura]

lemma cobertura_cerrar (m : ℕ → ℕ → ℚ) (puntos : List Punto) (pid : ℕ)
    (rutas : List Ruta) (ra : List ℕ) :
    cobertura (cerrar_barrido m puntos pid rutas ra) = cobertura_abierta rutas ra := by
  unfold cerrar_barrido cobertura_abierta
  split
  · rw [cobertura_append_una]
    congr 1
    simp [interiorMS, crear_ruta, interior_ruta_concat]
  · have h : ra.drop 1 = [] := by
      cases ra with
      | nil => rfl
      | cons a t =>
        rename_i hlen
        simp only [List.length_cons, not_lt] at hlen
        have : t.length = 0 := by omega
        simp [List.eq_nil_of_length_eq_zero this]
    simp [h]

lemma drop_one_concat (ra : List ℕ) (x : ℕ) (h : ra ≠ []) :
    (ra ++ [x]).drop 1 = ra.drop 1 ++ [x] := by
  cases ra with
  | nil => exact absurd rfl h
  | cons a t => rfl

lemma barrido_cobertura (m : ℕ → ℕ → ℚ) (puntos : List Punto) (cap : ℚ)
    (nv : ℤ) (pid : ℕ) (cobj : ℚ) :
    ∀ (ord : List Punto) (rutas : List Ruta) (ra : List ℕ) (carga : ℚ), ra ≠ [] →
      cobertura_abierta (barrido m puntos cap nv pid cobj ord rutas ra carga).1
          (barrido m puntos cap nv pid cobj ord rutas ra carga).2.1
        = cobertura_abierta rutas ra + ((ord.map Punto.id : List ℕ) : Multiset ℕ) := by
  intro ord
  induction ord with
  | nil =>
    intro rutas ra carga _
    simp [barrido]
  | cons p resto ih =>
    intro rutas ra carga hra
    rw [barrido]
    split
    · split
      · rw [ih _ _ _ (by simp)]
        have h1 : cobertura_abierta
            (rutas ++ [crear_ruta m puntos (ra ++ [pid])]) [pid, p.id]
            = cobertura_abierta rutas ra + ({p.id} : Multiset ℕ) := by
          unfold cobertura_abierta
          rw [cobertura_append_una]
          simp [interiorMS, crear_ruta, interior_ruta_concat]
        rw [h1]
        simp
        abel
      · rw [ih _ _ _ (by simp [hra])]
        have h2 : cobertura_abierta rutas (ra ++ [p.id])
            = cobertura_abierta rutas ra + ({p.id} : Multiset ℕ) := by
          unfold cobertura_abierta
          rw [drop_one_concat _ _ hra]
          have : ((ra.drop 1 ++ [p.id] : List ℕ) : Multiset ℕ)
              = (ra.drop 1 : List ℕ) + ({p.id} : Multiset ℕ) := by
            exact_mod_cast rfl
          rw [this]
          abel
        rw [h2]
        simp
        abel
    · rw [ih _ _ _ (by simp [hra])]
      have h2 : cobertura_abierta rutas (ra ++ [p.id])
          = cobertura_abierta rutas ra + ({p.id} : Multiset ℕ) := by
        unfold cobertura_abierta
        rw [drop_one_concat _ _ hra]
        have : ((ra.drop 1 ++ [p.id] : List ℕ) : Multiset ℕ)
            = (ra.drop 1 : List ℕ) + ({p.id} : Multiset ℕ) := by
          exact_mod_cast rfl
        rw [this]
        abel
      rw [h2]
      simp
      abel

lemma barrido_un_vehiculo (m : ℕ → ℕ → ℚ) (puntos : List Punto) (cap : ℚ)
    (pid : ℕ) (cobj : ℚ) :
    ∀ (ord : List Punto) (ra : List ℕ) (carga : ℚ),
      (barrido m puntos cap 1 pid cobj ord [] ra carga).1 = [] := by
  intro ord
  induction ord with
  | nil => intro ra c; simp [barrido]
  | cons p resto ih =>
    intro ra c
    rw [barrido]
    split
    · split
      · rename_i hlt
        exfalso
        simp only [List.length_nil, Nat.cast_zero, sub_zero] at hlt
        exact absurd hlt (by norm_num)
      · exact ih _ _
    · exact ih _ _

lemma escanea_duplicados_append (xs ys : List ℕ)
    (acc : List ErrorValidacion × Finset ℕ) :
    escanea_duplicados (xs ++ ys) acc
      = escanea_duplicados ys (escanea_duplicados xs acc) := by
  induction xs generalizing acc with
  | nil => rfl
  | cons a t ih =>
    obtain ⟨errores, visitados⟩ := acc
    simp [escanea_duplicados, ih]

lemma foldl_escanea_duplicados (rutas : List Ruta)
    (acc : List ErrorValidacion × Finset ℕ) :
    rutas.foldl (fun acc ruta => escanea_duplicados (interior_ruta ruta.puntos) acc) acc
      = escanea_duplicados (rutas.flatMap (fun r => interior_ruta r.puntos)) acc := by
  induction rutas generalizing acc with
  | nil => rfl
  | cons r resto ih => simp [escanea_duplicados_append, ih]

lemma escanea_duplicados_nodup :
    ∀ (l : List ℕ) (errores : List ErrorValidacion) (vis : Finset ℕ),
      l.Nodup → (∀ x ∈ l, x ∉ vis) →
      escanea_duplicados l (errores, vis) = (errores, vis ∪ l.toFinset) := by
  intro l
  induction l with
  | nil => intro errores vis _ _; simp [escanea_duplicados]
  | cons pid resto ih =>
    intro errores vis hnd hdis
    have hpid : pid ∉ vis := hdis pid (List.mem_cons_self pid resto)
    rw [escanea_duplicados]
    rw [if_neg hpid]
    rw [ih _ _ (List.Nodup.of_cons hnd) ?_]
    · congr 1
      ext x
      simp [Finset.mem_union, Finset.mem_insert, List.mem_toFinset]
    · intro x hx
      simp only [Finset.mem_insert, not_or]
      constructor
      · intro hxe
        subst hxe
        exact (List.nodup_cons.mp hnd).1 hx
      · exact hdis x (List.mem_cons_of_mem pid hx)

lemma cobertura_flatMap (rutas : List Ruta) :
    ((rutas.flatMap (fun r => interior_ruta r.puntos) : List ℕ) : Multiset ℕ)
      = cobertura rutas := by
  induction rutas with
  | nil => rfl
  | cons r resto ih =>
    simp only [List.flatMap_cons]
    have hsplit : ((interior_ruta r.puntos
          ++ resto.flatMap (fun r => interior_ruta r.puntos) : List ℕ) : Multiset ℕ)
        = (interior_ruta r.puntos : Multiset ℕ)
          + ((resto.flatMap (fun r => interior_ruta r.puntos) : List ℕ) : Multiset ℕ) := by
      exact_mod_cast rfl
    rw [hsplit, ih]
    simp [cobertura, interiorMS]

lemma puntos_ordenados_perm (atan2Q : ℚ → ℚ → ℚ) (sqrtQ : ℚ → ℚ)
    (puntos : List Punto) (pid : ℕ) :
    (puntos_ordenados atan2Q sqrtQ puntos pid).Perm
      (puntos.filter (fun p => p.id ≠ pid)) := by
  unfold puntos_ordenados
  have h1 := (List.mergeSort_perm (puntos_con_angulo_de atan2Q sqrtQ puntos pid)
    clave_barrido).map (fun x : Punto × ℚ × ℚ => x.1)
  have h2 : (puntos_con_angulo_de atan2Q sqrtQ puntos pid).map
      (fun x : Punto × ℚ × ℚ => x.1) = puntos.filter (fun p => p.id ≠ pid) := by
    unfold puntos_con_angulo_de
    rw [List.map_map]
    exact List.map_id' _
  rw [h2] at h1
  exact h1

lemma generar_solucion_inicial_cobertura (atan2Q : ℚ → ℚ → ℚ) (sqrtQ : ℚ → ℚ)
    (m : ℕ → ℕ → ℚ) (puntos : List Punto) (capacidad_vehiculo : ℚ)
    (num_vehiculos : ℤ) (punto_inicio_id : ℕ) :
    cobertura (generar_solucion_inicial atan2Q sqrtQ m puntos capacidad_vehiculo
        num_vehiculos punto_inicio_id)
      = (((puntos.filter (fun p => p.id ≠ punto_inicio_id)).map Punto.id :
          List ℕ) : Multiset ℕ) := by
  simp only [generar_solucion_inicial]
  rw [cobertura_cerrar]
  rw [barrido_cobertura _ _ _ _ _ _ _ _ _ _ (by simp)]
  have h0 : cobertura_abierta [] [punto_inicio_id] = 0 := by
    simp [cobertura_abierta, cobertura]
  rw [h0, zero_add]
  exact Multiset.coe_eq_coe.mpr
    ((puntos_ordenados_perm atan2Q sqrtQ puntos punto_inicio_id).map Punto.id)

/-- C3: for a valid configuration (unique ids, non-empty point set containing
the depot, positive capacity and fleet size), the sweep constructor covers
every non-depot point id in exactly one route interior exactly once, the
validator reports no coverage violations on its output, and with fleet size 1
everything lands on a single route. -/
theorem generar_solucion_inicial_cubre (atan2Q : ℚ → ℚ → ℚ) (sqrtQ : ℚ → ℚ)
    (m : ℕ → ℕ → ℚ) (puntos : List Punto) (capacidad_vehiculo : ℚ)
    (num_vehiculos : ℤ) (punto_inicio_id : ℕ)
    (hnodup : (puntos.map Punto.id).Nodup) (hne : puntos ≠ [])
    (hdep : punto_inicio_id ∈ puntos.map Punto.id)
    (hcap : 0 < capacidad_vehiculo) (hnv : 0 < num_vehiculos) :
    cobertura (generar_solucion_inicial atan2Q sqrtQ m puntos capacidad_vehiculo
        num_vehiculos punto_inicio_id)
      = (((puntos.filter (fun p => p.id ≠ punto_inicio_id)).map Punto.id :
          List ℕ) : Multiset ℕ)
    ∧ (∀ q ∈ puntos, q.id ≠ punto_inicio_id →
        Multiset.count q.id
          (cobertura (generar_solucion_inicial atan2Q sqrtQ m puntos
            capacidad_vehiculo num_vehiculos punto_inicio_id)) = 1)
    ∧ (∀ e ∈ (validar_solucion puntos capacidad_vehiculo num_vehiculos
          punto_inicio_id
          (generar_solucion_inicial atan2Q sqrtQ m puntos capacidad_vehiculo
            num_vehiculos punto_inicio_id)).2,
        es_error_cobertura e = false)
    ∧ (num_vehiculos = 1 →
        (generar_solucion_inicial atan2Q sqrtQ m puntos capacidad_vehiculo
          num_vehiculos punto_inicio_id).length ≤ 1) := by
  have hcob := generar_solucion_inicial_cobertura atan2Q sqrtQ m puntos
    capacidad_vehiculo num_vehiculos punto_inicio_id
  have hfilnodup : ((puntos.filter (fun p => p.id ≠ punto_inicio_id)).map
      Punto.id).Nodup :=
    ((List.filter_sublist puntos).map Punto.id).nodup hnodup
  refine ⟨hcob, ?_, ?_, ?_⟩
  · intro q hq hqne
    rw [hcob, Multiset.coe_count]
    apply List.count_eq_one_of_mem hfilnodup
    exact List.mem_map.mpr ⟨q, List.mem_filter.mpr ⟨hq, by simp [hqne]⟩, rfl⟩
  · set sol := generar_solucion_inicial atan2Q sqrtQ m puntos capacidad_vehiculo
      num_vehiculos punto_inicio_id with hsol
    have hperm : (sol.flatMap (fun r => interior_ruta r.puntos)).Perm
        ((puntos.filter (fun p => p.id ≠ punto_inicio_id)).map Punto.id) := by
      rw [← Multiset.coe_eq_coe, cobertura_flatMap]
      exact hcob
    have hLnodup : (sol.flatMap (fun r => interior_ruta r.puntos)).Nodup :=
      hperm.nodup_iff.mpr hfilnodup
    have hfin : ((puntos.filter (fun p => p.id ≠ punto_inicio_id)).map
          Punto.id).toFinset
        = (sol.flatMap (fun r => interior_ruta r.puntos)).toFinset :=
      List.toFinset_eq_of_perm _ _ hperm.symm
    intro e he
    simp only [validar_solucion] at he
    rw [foldl_escanea_duplicados] at he
    rw [escanea_duplicados_nodup _ _ _ hLnodup (by simp)] at he
    simp only [Finset.empty_union] at he
    rw [← hfin] at he
    simp only [Finset.sdiff_self, ne_eq, not_true_eq_false, if_false,
      ite_false, List.nil_append] at he
    split at he
    · rcases List.mem_append.mp he with h | h
      · obtain ⟨x, _, hx⟩ := List.mem_map.mp h
        subst hx
        rfl
      · simp only [List.mem_singleton] at h
        subst h
        rfl
    · obtain ⟨x, _, hx⟩ := List.mem_map.mp he
      subst hx
      rfl
  · intro hnv1
    subst hnv1
    simp only [generar_solucion_inicial]
    rw [barrido_un_vehiculo]
    unfold cerrar_barrido
    split <;> simp

/-- Witness for C3 at a concrete valid configuration. -/
theorem generar_solucion_inicial_cubre_witness :
    ((puntosEjemplo.map Punto.id).Nodup ∧ puntosEjemplo ≠ []
      ∧ 0 ∈ puntosEjemplo.map Punto.id ∧ (0 : ℚ) < 100 ∧ (0 : ℤ) < 2)
    ∧ (cobertura (generar_solucion_inicial (fun _ _ => 0) (fun _ => 0)
          (fun _ _ => 0) puntosEjemplo 100 2 0)
        = (((puntosEjemplo.filter (fun p => p.id ≠ 0)).map Punto.id :
            List ℕ) : Multiset ℕ)
      ∧ (∀ q ∈ puntosEjemplo, q.id ≠ 0 →
          Multiset.count q.id
            (cobertura (generar_solucion_inicial (fun _ _ => 0) (fun _ => 0)
              (fun _ _ => 0) puntosEjemplo 100 2 0)) = 1)
      ∧ (∀ e ∈ (validar_solucion puntosEjemplo 100 2 0
            (generar_solucion_inicial (fun _ _ => 0) (fun _ => 0)
              (fun _ _ => 0) puntosEjemplo 100 2 0)).2,
          es_error_cobertura e = false)
      ∧ ((2 : ℤ) = 1 →
          (generar_solucion_inicial (fun _ _ => 0) (fun _ => 0)
            (fun _ _ => 0) puntosEjemplo 100 2 0).length ≤ 1)) :=
  ⟨⟨by decide, by decide, by decide, by decide, by decide⟩,
   generar_solucion_inicial_cubre (fun _ _ => 0) (fun _ => 0) (fun _ _ => 0)
     puntosEjemplo 100 2 0 (by decide) (by decide) (by decide) (by decide)
     (by decide)⟩

lemma cobertura_cons (r : Ruta) (t : List Ruta) :
    cobertura (r :: t) = interiorMS r + cobertura t := by
  simp [cobertura]

lemma cobertura_set (sol : List Ruta) :
    ∀ (k : ℕ) (r : Ruta), k < sol.length →
      cobertura (sol.set k r) + interiorMS (sol.getD k rutaDefecto)
        = cobertura sol + interiorMS r := by
  induction sol with
  | nil => intro k r hk; simp at hk
  | cons a t ih =>
    intro k r hk
    cases k with
    | zero =>
      simp only [List.set_cons_zero, List.getD_cons_zero, cobertura_cons]
      abel
    | succ k' =>
      simp only [List.set_cons_succ, List.getD_cons_succ, cobertura_cons]
      have h := ih k' r (by simpa using hk)
      calc interiorMS a + cobertura (t.set k' r) + interiorMS (t.getD k' rutaDefecto)
          = interiorMS a + (cobertura (t.set k' r) + interiorMS (t.getD k' rutaDefecto)) := by abel
        _ = interiorMS a + (cobertura t + interiorMS r) := by rw [h]
        _ = interiorMS a + cobertura t + interiorMS r := by abel

lemma coe_list_set (l : List ℕ) :
    ∀ (k v : ℕ), k < l.length →
      ((l.set k v : List ℕ) : Multiset ℕ) + {l.getD k 0}
        = (l : Multiset ℕ) + {v} := by
  induction l with
  | nil => intro k v hk; simp at hk
  | cons a t ih =>
    intro k v hk
    cases k with
    | zero =>
      simp only [List.set_cons_zero, List.getD_cons_zero]
      have e1 : ((v :: t : List ℕ) : Multiset ℕ) = v ::ₘ (t : Multiset ℕ) := rfl
      have e2 : ((a :: t : List ℕ) : Multiset ℕ) = a ::ₘ (t : Multiset ℕ) := rfl
      rw [e1, e2, ← Multiset.singleton_add, ← Multiset.singleton_add]
      abel
    | succ k' =>
      simp only [List.set_cons_succ, List.getD_cons_succ]
      have h := ih k' v (by simpa using hk)
      have e1 : ((a :: t.set k' v : List ℕ) : Multiset ℕ)
          = a ::ₘ ((t.set k' v : List ℕ) : Multiset ℕ) := rfl
      have e2 : ((a :: t : List ℕ) : Multiset ℕ) = a ::ₘ (t : Multiset ℕ) := rfl
      rw [e1, e2, ← Multiset.singleton_add, ← Multiset.singleton_add]
      calc {a} + ((t.set k' v : List ℕ) : Multiset ℕ) + {t.getD k' 0}
          = {a} + (((t.set k' v : List ℕ) : Multiset ℕ) + {t.getD k' 0}) := by abel
        _ = {a} + ((t : Multiset ℕ) + {v}) := by rw [h]
        _ = {a} + (t : Multiset ℕ) + {v} := by abel

lemma coe_list_eraseIdx (l : List ℕ) :
    ∀ (k : ℕ), k < l.length →
      ((l.eraseIdx k : List ℕ) : Multiset ℕ) + {l.getD k 0} = (l : Multiset ℕ) := by
  induction l with
  | nil => intro k hk; simp at hk
  | cons a t ih =>
    intro k hk
    cases k with
    | zero =>
      simp only [List.eraseIdx_cons_zero, List.getD_cons_zero]
      have e2 : ((a :: t : List ℕ) : Multiset ℕ) = {a} + (t : Multiset ℕ) := by
        rw [Multiset.singleton_add]
        exact rfl
      rw [e2]
      abel
    | succ k' =>
      simp only [List.eraseIdx_cons_succ, List.getD_cons_succ]
      have h := ih k' (by simpa using hk)
      have e1 : ((a :: t.eraseIdx k' : List ℕ) : Multiset ℕ)
          = {a} + ((t.eraseIdx k' : List ℕ) : Multiset ℕ) := by
        rw [Multiset.singleton_add]
        exact rfl
      have e2 : ((a :: t : List ℕ) : Multiset ℕ) = {a} + (t : Multiset ℕ) := by
        rw [Multiset.singleton_add]
        exact rfl
      rw [e1, e2, add_assoc, h]

lemma coe_list_insertIdx (l : List ℕ) (k v : ℕ) (hk : k ≤ l.length) :
    ((l.insertIdx k v : List ℕ) : Multiset ℕ) = (l : Multiset ℕ) + {v} := by
  have hp := List.perm_insertIdx v l hk
  have h2 : ((l.insertIdx k v : List ℕ) : Multiset ℕ) = ((v :: l : List ℕ) : Multiset ℕ) :=
    Multiset.coe_eq_coe.mpr hp
  have e1 : ((v :: l : List ℕ) : Multiset ℕ) = {v} + (l : Multiset ℕ) := by
    rw [Multiset.singleton_add]
    exact rfl
  rw [h2, e1]
  abel

lemma set_getD_self (l : List ℕ) :
    ∀ (k : ℕ), k < l.length → l.set k (l.getD k 0) = l := by
  induction l with
  | nil => intro k hk; simp at hk
  | cons a t ih =>
    intro k hk
    cases k with
    | zero => simp
    | succ k' =>
      simp only [List.getD_cons_succ, List.set_cons_succ]
      rw [ih k' (by simpa using hk)]

lemma dropLast_set (l : List ℕ) :
    ∀ (k v : ℕ), k + 1 < l.length → (l.set k v).dropLast = l.dropLast.set k v := by
  induction l with
  | nil => intro k v hk; simp at hk
  | cons a t ih =>
    intro k v hk
    have ht : t ≠ [] := by
      intro h
      subst h
      simp at hk
    cases k with
    | zero =>
      rw [List.set_cons_zero, List.dropLast_cons_of_ne_nil ht,
        List.dropLast_cons_of_ne_nil ht, List.set_cons_zero]
    | succ k' =>
      have hne : t.set k' v ≠ [] := by
        intro h
        have := congrArg List.length h
        simp at this
        subst this
        simp at hk
      rw [List.set_cons_succ, List.dropLast_cons_of_ne_nil hne,
        List.dropLast_cons_of_ne_nil ht, List.set_cons_succ,
        ih k' v (by simpa using hk)]

lemma dropLast_eraseIdx (l : List ℕ) :
    ∀ (k : ℕ), k + 1 < l.length → (l.eraseIdx k).dropLast = l.dropLast.eraseIdx k := by
  induction l with
  | nil => intro k hk; simp at hk
  | cons a t ih =>
    intro k hk
    have ht : t ≠ [] := by
      intro h
      subst h
      simp at hk
    cases k with
    | zero =>
      rw [List.eraseIdx_cons_zero, List.dropLast_cons_of_ne_nil ht,
        List.eraseIdx_cons_zero]
    | succ k' =>
      have hlen : 1 < t.length := by
        have := hk
        simp only [List.length_cons] at this
        omega
      have hne : t.eraseIdx k' ≠ [] := by
        intro h
        have := congrArg List.length h
        rw [List.length_eraseIdx] at this
        simp only [List.length_nil] at this
        split at this <;> omega
      rw [List.eraseIdx_cons_succ, List.dropLast_cons_of_ne_nil hne,
        List.dropLast_cons_of_ne_nil ht, List.eraseIdx_cons_succ,
        ih k' (by simpa using hk)]

lemma dropLast_insertIdx (l : List ℕ) :
    ∀ (k v : ℕ), k < l.length → (l.insertIdx k v).dropLast = l.dropLast.insertIdx k v := by
  induction l with
  | nil => intro k v hk; simp at hk
  | cons a t ih =>
    intro k v hk
    cases k with
    | zero =>
      rw [List.insertIdx_zero, List.dropLast_cons_of_ne_nil (by simp),
        List.insertIdx_zero]
    | succ k' =>
      have hk' : k' < t.length := by simpa using hk
      have ht : t ≠ [] := by
        intro h
        subst h
        simp at hk'
      have hne : t.insertIdx k' v ≠ [] := by
        intro h
        have := congrArg List.length h
        rw [List.length_insertIdx k' t (le_of_lt hk')] at this
        simp at this
      rw [List.insertIdx_succ_cons, List.dropLast_cons_of_ne_nil hne,
        List.dropLast_cons_of_ne_nil ht, List.insertIdx_succ_cons, ih k' v hk']

lemma interior_ruta_length (l : List ℕ) :
    (interior_ruta l).length = l.length - 1 - 1 := by
  simp [interior_ruta]

lemma interior_ruta_set (l : List ℕ) (i v : ℕ) (h1 : 1 ≤ i)
    (h2 : i + 1 < l.length) :
    interior_ruta (l.set i v) = (interior_ruta l).set (i - 1) v := by
  cases l with
  | nil => simp at h2
  | cons a t =>
    cases i with
    | zero => omega
    | succ i' =>
      simp only [List.set_cons_succ, interior_ruta, List.drop_one,
        List.tail_cons, Nat.add_sub_cancel]
      exact dropLast_set t i' v (by simpa using h2)

lemma interior_ruta_eraseIdx (l : List ℕ) (i : ℕ) (h1 : 1 ≤ i)
    (h2 : i + 1 < l.length) :
    interior_ruta (l.eraseIdx i) = (interior_ruta l).eraseIdx (i - 1) := by
  cases l with
  | nil => simp at h2
  | cons a t =>
    cases i with
    | zero => omega
    | succ i' =>
      simp only [List.eraseIdx_cons_succ, interior_ruta, List.drop_one,
        List.tail_cons, Nat.add_sub_cancel]
      exact dropLast_eraseIdx t i' (by simpa using h2)

lemma interior_ruta_insertIdx (l : List ℕ) (k v : ℕ) (h1 : 1 ≤ k)
    (h2 : k < l.length) :
    interior_ruta (l.insertIdx k v) = (interior_ruta l).insertIdx (k - 1) v := by
  cases l with
  | nil => simp at h2
  | cons a t =>
    cases k with
    | zero => omega
    | succ k' =>
      simp only [List.insertIdx_succ_cons, interior_ruta, List.drop_one,
        List.tail_cons, Nat.add_sub_cancel]
      exact dropLast_insertIdx t k' v (by simpa using h2)

lemma interior_ruta_getD (l : List ℕ) (i : ℕ) (h1 : 1 ≤ i)
    (h2 : i + 1 < l.length) :
    (interior_ruta l).getD (i - 1) 0 = l.getD i 0 := by
  have hlen : i - 1 < (interior_ruta l).length := by
    rw [interior_ruta_length]
    omega
  have hi : i < l.length := by omega
  rw [List.getD_eq_getElem _ _ hlen, List.getD_eq_getElem _ _ hi]
  unfold interior_ruta at hlen ⊢
  rw [List.getElem_dropLast, List.getElem_drop]
  congr 1
  omega

lemma getD_set_ne (l : List ℕ) (i j v : ℕ) (h : i ≠ j) :
    (l.set i v).getD j 0 = l.getD j 0 := by
  rw [List.getD_eq_getElem?_getD, List.getD_eq_getElem?_getD,
    List.getElem?_set_ne h]

lemma coe_list_swap (x : List ℕ) (a b : ℕ) (ha : a < x.length)
    (hb : b < x.length) :
    (((x.set a (x.getD b 0)).set b (x.getD a 0) : List ℕ) : Multiset ℕ)
      = (x : Multiset ℕ) := by
  by_cases hab : a = b
  · subst hab
    rw [List.set_set, set_getD_self x a ha]
  · have h1 := coe_list_set (x.set a (x.getD b 0)) b (x.getD a 0)
      (by simpa using hb)
    rw [getD_set_ne _ _ _ _ hab] at h1
    have h2 := coe_list_set x a (x.getD b 0) ha
    have h3 : (((x.set a (x.getD b 0)).set b (x.getD a 0) : List ℕ) : Multiset ℕ)
        + {x.getD b 0} = (x : Multiset ℕ) + {x.getD b 0} := by
      rw [h1, h2]
    exact add_right_cancel h3

lemma intra_swap_cobertura (m : ℕ → ℕ → ℚ) (puntos : List Punto)
    (sol : List Ruta) (d1 d2 d3 : ℕ) :
    cobertura (intra_swap m puntos sol d1 d2 d3) = cobertura sol := by
  unfold intra_swap
  split
  · rename_i hlen
    dsimp only
    split
    · rename_i hr
      have hidx : d1 % sol.length < sol.length := Nat.mod_lt _ hlen
      set p := (sol.getD (d1 % sol.length) rutaDefecto).puntos with hp
      set i := 1 + d2 % (p.length - 3) with hidef
      set j := 1 + d3 % (p.length - 3) with hjdef
      have hmod2 : d2 % (p.length - 3) < p.length - 3 := Nat.mod_lt _ (by omega)
      have hmod3 : d3 % (p.length - 3) < p.length - 3 := Nat.mod_lt _ (by omega)
      have hi2 : i + 1 < p.length := by omega
      have hj2 : j + 1 < p.length := by omega
      have hkey : interiorMS (crear_ruta m puntos
          ((p.set i (p.getD j 0)).set j (p.getD i 0)))
          = interiorMS (sol.getD (d1 % sol.length) rutaDefecto) := by
        show ((interior_ruta ((p.set i (p.getD j 0)).set j (p.getD i 0)) :
          List ℕ) : Multiset ℕ) = ↑(interior_ruta p)
        rw [interior_ruta_set _ _ _ (by omega) (by rw [List.length_set]; omega),
          interior_ruta_set _ _ _ (by omega) hi2]
        rw [← interior_ruta_getD p i (by omega) hi2,
          ← interior_ruta_getD p j (by omega) hj2]
        exact coe_list_swap (interior_ruta p) (i - 1) (j - 1)
          (by rw [interior_ruta_length]; omega)
          (by rw [interior_ruta_length]; omega)
      have hset := cobertura_set sol (d1 % sol.length)
        (crear_ruta m puntos ((p.set i (p.getD j 0)).set j (p.getD i 0))) hidx
      rw [hkey] at hset
      exact add_right_cancel hset
    · rfl
  · rfl

lemma interior_ruta_three (x mdl z : List ℕ) (hx : x ≠ []) (hz : z ≠ []) :
    interior_ruta (x ++ mdl ++ z) = x.drop 1 ++ (mdl ++ z.dropLast) := by
  unfold interior_ruta
  rw [List.append_assoc,
    List.drop_append_of_le_length (by cases x with
      | nil => exact absurd rfl hx
      | cons a t => simp)]
  rw [List.dropLast_append_of_ne_nil _ (by
    intro h
    rcases List.append_eq_nil.mp h with ⟨-, h2⟩
    exact hz h2)]
  rw [List.dropLast_append_of_ne_nil _ hz]

lemma two_opt_interior (p : List ℕ) (i j : ℕ) (h1 : 1 ≤ i) (h2 : i + 1 ≤ j)
    (h3 : j + 1 < p.length) :
    ((interior_ruta (p.take i ++ ((p.drop i).take (j + 1 - i)).reverse
        ++ p.drop (j + 1)) : List ℕ) : Multiset ℕ)
      = ((interior_ruta p : List ℕ) : Multiset ℕ) := by
  have hdecomp : p.take i ++ (p.drop i).take (j + 1 - i) ++ p.drop (j + 1) = p := by
    rw [List.append_assoc]
    have hdd : p.drop (j + 1) = (p.drop i).drop (j + 1 - i) := by
      rw [List.drop_drop]
      congr 1
      omega
    rw [hdd, List.take_append_drop, List.take_append_drop]
  have htake : p.take i ≠ [] := by
    intro h
    have := congrArg List.length h
    simp only [List.length_take, List.length_nil] at this
    omega
  have hdrop : p.drop (j + 1) ≠ [] := by
    intro h
    have := congrArg List.length h
    simp only [List.length_drop, List.length_nil] at this
    omega
  conv_rhs => rw [← hdecomp]
  rw [interior_ruta_three _ _ _ htake hdrop,
    interior_ruta_three _ _ _ htake hdrop]
  apply Multiset.coe_eq_coe.mpr
  apply List.Perm.append_left
  apply List.Perm.append_right
  exact List.reverse_perm _

lemma two_opt_cobertura (m : ℕ → ℕ → ℚ) (puntos : List Punto)
    (sol : List Ruta) (d1 d2 d3 : ℕ) :
    cobertura (two_opt m puntos sol d1 d2 d3) = cobertura sol := by
  unfold two_opt
  split
  · rename_i hlen
    dsimp only
    split
    · rename_i hr
      have hidx : d1 % sol.length < sol.length := Nat.mod_lt _ hlen
      set p := (sol.getD (d1 % sol.length) rutaDefecto).puntos with hp
      have hmod2 : d2 % (p.length - 3) < p.length - 3 := Nat.mod_lt _ (by omega)
      have hmod3 : d3 % (p.length - 2 - (1 + d2 % (p.length - 3)))
          < p.length - 2 - (1 + d2 % (p.length - 3)) := Nat.mod_lt _ (by omega)
      have hkey : interiorMS (crear_ruta m puntos
          (p.take (1 + d2 % (p.length - 3))
            ++ ((p.drop (1 + d2 % (p.length - 3))).take
                (1 + d2 % (p.length - 3) + 1
                  + d3 % (p.length - 2 - (1 + d2 % (p.length - 3))) + 1
                  - (1 + d2 % (p.length - 3)))).reverse
            ++ p.drop (1 + d2 % (p.length - 3) + 1
                  + d3 % (p.length - 2 - (1 + d2 % (p.length - 3))) + 1)))
          = interiorMS (sol.getD (d1 % sol.length) rutaDefecto) :=
        two_opt_interior p _ _ (by omega) (by omega) (by omega)
      have hset := cobertura_set sol (d1 % sol.length)
        (crear_ruta m puntos
          (p.take (1 + d2 % (p.length - 3))
            ++ ((p.drop (1 + d2 % (p.length - 3))).take
                (1 + d2 % (p.length - 3) + 1
                  + d3 % (p.length - 2 - (1 + d2 % (p.length - 3))) + 1
                  - (1 + d2 % (p.length - 3)))).reverse
            ++ p.drop (1 + d2 % (p.length - 3) + 1
                  + d3 % (p.length - 2 - (1 + d2 % (p.length - 3))) + 1)))
        hidx
      rw [hkey] at hset
      exact add_right_cancel hset
    · rfl
  · rfl

lemma getD_set_ne_ruta (l : List Ruta) (i j : ℕ) (v : Ruta) (h : i ≠ j) :
    (l.set i v).getD j rutaDefecto = l.getD j rutaDefecto := by
  rw [List.getD_eq_getElem?_getD, List.getD_eq_getElem?_getD,
    List.getElem?_set_ne h]

lemma inter_swap_cobertura (m : ℕ → ℕ → ℚ) (puntos : List Punto)
    (capacidad_vehiculo : ℚ) (sol : List Ruta) (d1 d2 d3 d4 : ℕ) :
    cobertura (inter_swap m puntos capacidad_vehiculo sol d1 d2 d3 d4)
      = cobertura sol := by
  unfold inter_swap
  split
  · rename_i hlen
    dsimp only
    split
    · rename_i hne
      split
      · rename_i hguard
        split
        · rename_i hcap
          obtain ⟨hg1, hg2⟩ := hguard
          have hr1 : d1 % sol.length < sol.length := Nat.mod_lt _ (by omega)
          have hr2 : d2 % sol.length < sol.length := Nat.mod_lt _ (by omega)
          set P1 := (sol.getD (d1 % sol.length) rutaDefecto).puntos with hP1
          set P2 := (sol.getD (d2 % sol.length) rutaDefecto).puntos with hP2
          have hm3 : d3 % (P1.length - 2) < P1.length - 2 := Nat.mod_lt _ (by omega)
          have hm4 : d4 % (P2.length - 2) < P2.length - 2 := Nat.mod_lt _ (by omega)
          have e1 : interiorMS (crear_ruta m puntos
                (P1.set (1 + d3 % (P1.length - 2)) (P2.getD (1 + d4 % (P2.length - 2)) 0)))
                + {P1.getD (1 + d3 % (P1.length - 2)) 0}
              = interiorMS (sol.getD (d1 % sol.length) rutaDefecto)
                + {P2.getD (1 + d4 % (P2.length - 2)) 0} := by
            show ((interior_ruta (P1.set (1 + d3 % (P1.length - 2))
                (P2.getD (1 + d4 % (P2.length - 2)) 0)) : List ℕ) : Multiset ℕ) + _
              = ((interior_ruta P1 : List ℕ) : Multiset ℕ) + _
            rw [interior_ruta_set _ _ _ (by omega) (by omega),
              ← interior_ruta_getD P1 (1 + d3 % (P1.length - 2)) (by omega) (by omega)]
            exact coe_list_set (interior_ruta P1) _ _
              (by rw [interior_ruta_length]; omega)
          have e2 : interiorMS (crear_ruta m puntos
                (P2.set (1 + d4 % (P2.length - 2)) (P1.getD (1 + d3 % (P1.length - 2)) 0)))
                + {P2.getD (1 + d4 % (P2.length - 2)) 0}
              = interiorMS (sol.getD (d2 % sol.length) rutaDefecto)
                + {P1.getD (1 + d3 % (P1.length - 2)) 0} := by
            show ((interior_ruta (P2.set (1 + d4 % (P2.length - 2))
                (P1.getD (1 + d3 % (P1.length - 2)) 0)) : List ℕ) : Multiset ℕ) + _
              = ((interior_ruta P2 : List ℕ) : Multiset ℕ) + _
            rw [interior_ruta_set _ _ _ (by omega) (by omega),
              ← interior_ruta_getD P2 (1 + d4 % (P2.length - 2)) (by omega) (by omega)]
            exact coe_list_set (interior_ruta P2) _ _
              (by rw [interior_ruta_length]; omega)
          set R1 := crear_ruta m puntos
            (P1.set (1 + d3 % (P1.length - 2)) (P2.getD (1 + d4 % (P2.length - 2)) 0))
            with hR1
          set R2 := crear_ruta m puntos
            (P2.set (1 + d4 % (P2.length - 2)) (P1.getD (1 + d3 % (P1.length - 2)) 0))
            with hR2
          set A := interiorMS (sol.getD (d1 % sol.length) rutaDefecto) with hA
          set B := interiorMS (sol.getD (d2 % sol.length) rutaDefecto) with hB
          have E : interiorMS R1 + interiorMS R2 = A + B := by
            have hsum : interiorMS R1 + interiorMS R2
                + ({P1.getD (1 + d3 % (P1.length - 2)) 0}
                  + {P2.getD (1 + d4 % (P2.length - 2)) 0})
                = A + B + ({P1.getD (1 + d3 % (P1.length - 2)) 0}
                  + {P2.getD (1 + d4 % (P2.length - 2)) 0}) := by
              calc interiorMS R1 + interiorMS R2
                  + ({P1.getD (1 + d3 % (P1.length - 2)) 0}
                    + {P2.getD (1 + d4 % (P2.length - 2)) 0})
                  = (interiorMS R1 + {P1.getD (1 + d3 % (P1.length - 2)) 0})
                    + (interiorMS R2 + {P2.getD (1 + d4 % (P2.length - 2)) 0}) := by
                    abel
                _ = (A + {P2.getD (1 + d4 % (P2.length - 2)) 0})
                    + (B + {P1.getD (1 + d3 % (P1.length - 2)) 0}) := by
                    rw [e1, e2]
                _ = A + B + ({P1.getD (1 + d3 % (P1.length - 2)) 0}
                    + {P2.getD (1 + d4 % (P2.length - 2)) 0}) := by abel
            exact add_right_cancel hsum
          have hset1 := cobertura_set sol (d1 % sol.length) R1 hr1
          have hset2 := cobertura_set (sol.set (d1 % sol.length) R1)
            (d2 % sol.length) R2 (by rw [List.length_set]; omega)
          rw [getD_set_ne_ruta _ _ _ _ hne] at hset2
          have hfin : cobertura ((sol.set (d1 % sol.length) R1).set
                (d2 % sol.length) R2) + (B + A)
              = cobertura sol + (B + A) := by
            calc cobertura ((sol.set (d1 % sol.length) R1).set (d2 % sol.length) R2)
                + (B + A)
                = (cobertura ((sol.set (d1 % sol.length) R1).set (d2 % sol.length) R2)
                  + B) + A := by abel
              _ = (cobertura (sol.set (d1 % sol.length) R1) + interiorMS R2) + A := by
                  rw [hset2]
              _ = (cobertura (sol.set (d1 % sol.length) R1) + A) + interiorMS R2 := by
                  abel
              _ = (cobertura sol + interiorMS R1) + interiorMS R2 := by rw [hset1]
              _ = cobertura sol + (interiorMS R1 + interiorMS R2) := by abel
              _ = cobertura sol + (A + B) := by rw [E]
              _ = cobertura sol + (B + A) := by abel
          exact add_right_cancel hfin
        · rfl
      · rfl
    · rfl
  · rfl

lemma relocate_cobertura (m : ℕ → ℕ → ℚ) (puntos : List Punto)
    (capacidad_vehiculo : ℚ) (sol : List Ruta) (d1 d2 d3 d4 : ℕ)
    (h2 : ∀ r ∈ sol, 2 ≤ r.puntos.length) :
    cobertura (relocate m puntos capacidad_vehiculo sol d1 d2 d3 d4)
      = cobertura sol := by
  unfold relocate
  split
  · rename_i hlen
    dsimp only
    split
    · rename_i hne
      split
      · rename_i hguard
        split
        · rename_i hcap
          have hr1 : d1 % sol.length < sol.length := Nat.mod_lt _ (by omega)
          have hr2 : d2 % sol.length < sol.length := Nat.mod_lt _ (by omega)
          set P1 := (sol.getD (d1 % sol.length) rutaDefecto).puntos with hP1
          set P2 := (sol.getD (d2 % sol.length) rutaDefecto).puntos with hP2
          have hr2mem : sol.getD (d2 % sol.length) rutaDefecto ∈ sol := by
            rw [List.getD_eq_getElem _ _ hr2]
            exact List.getElem_mem _
          have hL2 : 2 ≤ P2.length := h2 _ hr2mem
          have hm3 : d3 % (P1.length - 2) < P1.length - 2 := Nat.mod_lt _ (by omega)
          have hm4 : d4 % (P2.length - 1) < P2.length - 1 := Nat.mod_lt _ (by omega)
          have e1 : interiorMS (crear_ruta m puntos
                (P1.eraseIdx (1 + d3 % (P1.length - 2))))
                + {P1.getD (1 + d3 % (P1.length - 2)) 0}
              = interiorMS (sol.getD (d1 % sol.length) rutaDefecto) := by
            show ((interior_ruta (P1.eraseIdx (1 + d3 % (P1.length - 2))) :
                List ℕ) : Multiset ℕ) + _
              = ((interior_ruta P1 : List ℕ) : Multiset ℕ)
            rw [interior_ruta_eraseIdx _ _ (by omega) (by omega),
              ← interior_ruta_getD P1 (1 + d3 % (P1.length - 2)) (by omega) (by omega)]
            exact coe_list_eraseIdx (interior_ruta P1) _
              (by rw [interior_ruta_length]; omega)
          have e2 : interiorMS (crear_ruta m puntos
                (P2.insertIdx (1 + d4 % (P2.length - 1))
                  (P1.getD (1 + d3 % (P1.length - 2)) 0)))
              = interiorMS (sol.getD (d2 % sol.length) rutaDefecto)
                + {P1.getD (1 + d3 % (P1.length - 2)) 0} := by
            show ((interior_ruta (P2.insertIdx (1 + d4 % (P2.length - 1))
                (P1.getD (1 + d3 % (P1.length - 2)) 0)) : List ℕ) : Multiset ℕ)
              = ((interior_ruta P2 : List ℕ) : Multiset ℕ) + _
            rw [interior_ruta_insertIdx _ _ _ (by omega) (by omega)]
            exact coe_list_insertIdx (interior_ruta P2) _ _
              (by rw [interior_ruta_length]; omega)
          set R1 := crear_ruta m puntos (P1.eraseIdx (1 + d3 % (P1.length - 2)))
            with hR1
          set R2 := crear_ruta m puntos
            (P2.insertIdx (1 + d4 % (P2.length - 1))
              (P1.getD (1 + d3 % (P1.length - 2)) 0)) with hR2
          set A := interiorMS (sol.getD (d1 % sol.length) rutaDefecto) with hA
          set B := interiorMS (sol.getD (d2 % sol.length) rutaDefecto) with hB
          have E : interiorMS R1 + interiorMS R2 = A + B := by
            have hsum : interiorMS R1 + interiorMS R2
                  + {P1.getD (1 + d3 % (P1.length - 2)) 0}
                = A + B + {P1.getD (1 + d3 % (P1.length - 2)) 0} := by
              calc interiorMS R1 + interiorMS R2
                  + {P1.getD (1 + d3 % (P1.length - 2)) 0}
                  = (interiorMS R1 + {P1.getD (1 + d3 % (P1.length - 2)) 0})
                    + interiorMS R2 := by abel
                _ = A + (B + {P1.getD (1 + d3 % (P1.length - 2)) 0}) := by
                    rw [e1, e2]
                _ = A + B + {P1.getD (1 + d3 % (P1.length - 2)) 0} := by abel
            exact add_right_cancel hsum
          have hset1 := cobertura_set sol (d1 % sol.length) R1 hr1
          have hset2 := cobertura_set (sol.set (d1 % sol.length) R1)
            (d2 % sol.length) R2 (by rw [List.length_set]; omega)
          rw [getD_set_ne_ruta _ _ _ _ hne] at hset2
          have hfin : cobertura ((sol.set (d1 % sol.length) R1).set
                (d2 % sol.length) R2) + (B + A)
              = cobertura sol + (B + A) := by
            calc cobertura ((sol.set (d1 % sol.length) R1).set (d2 % sol.length) R2)
                + (B + A)
                = (cobertura ((sol.set (d1 % sol.length) R1).set (d2 % sol.length) R2)
                  + B) + A := by abel
              _ = (cobertura (sol.set (d1 % sol.length) R1) + interiorMS R2) + A := by
                  rw [hset2]
              _ = (cobertura (sol.set (d1 % sol.length) R1) + A) + interiorMS R2 := by
                  abel
              _ = (cobertura sol + interiorMS R1) + interiorMS R2 := by rw [hset1]
              _ = cobertura sol + (interiorMS R1 + interiorMS R2) := by abel
              _ = cobertura sol + (A + B) := by rw [E]
              _ = cobertura sol + (B + A) := by abel
          exact add_right_cancel hfin
        · rfl
      · rfl
    · rfl
  · rfl

lemma buscar_par_consolidar_infix (cap : ℚ) :
    ∀ (l : List (ℕ × Ruta)) (x1 x2 : ℕ × Ruta),
      buscar_par_consolidar cap l = some (x1, x2) → [x1, x2] <:+: l := by
  intro l
  induction l with
  | nil => intro x1 x2 h; simp [buscar_par_consolidar] at h
  | cons a t ih =>
    intro x1 x2 h
    cases t with
    | nil => simp [buscar_par_consolidar] at h
    | cons b t2 =>
      rw [buscar_par_consolidar] at h
      split at h
      · injection h with h2
        rw [Prod.mk.injEq] at h2
        obtain ⟨rfl, rfl⟩ := h2
        exact ⟨[], t2, rfl⟩
      · exact List.infix_cons (ih x1 x2 h)

lemma cobertura_filter_one :
    ∀ (l : List Ruta) (n i : ℕ), n ≤ i → i - n < l.length →
      cobertura (((List.enumFrom n l).filter (fun p => p.1 ≠ i)).map Prod.snd)
          + interiorMS (l.getD (i - n) rutaDefecto)
        = cobertura l := by
  intro l
  induction l with
  | nil => intro n i _ h; simp at h
  | cons r t ih =>
    intro n i hni hlt
    rw [List.enumFrom_cons, List.filter_cons]
    by_cases hcase : n = i
    · subst hcase
      rw [if_neg (by simp)]
      have hvac : (List.enumFrom (n + 1) t).filter (fun p => p.1 ≠ n)
          = List.enumFrom (n + 1) t := by
        apply List.filter_eq_self.mpr
        intro p hp
        obtain ⟨k, x⟩ := p
        have hk := (List.mem_enumFrom hp).1
        simp only [ne_eq, decide_eq_true_eq]
        omega
      rw [hvac, List.enumFrom_map_snd]
      rw [Nat.sub_self, List.getD_cons_zero, cobertura_cons]
      abel
    · rw [if_pos (by simp only [ne_eq, decide_eq_true_eq]; exact hcase)]
      rw [List.map_cons, cobertura_cons]
      have hin : i - n = (i - (n + 1)) + 1 := by omega
      rw [hin, List.getD_cons_succ]
      have hrec := ih (n + 1) i (by omega)
        (by simp only [List.length_cons] at hlt; omega)
      rw [add_assoc, hrec, cobertura_cons]

lemma cobertura_filter_two :
    ∀ (l : List Ruta) (n i j : ℕ), i ≠ j → n ≤ i → n ≤ j →
      i - n < l.length → j - n < l.length →
      cobertura (((List.enumFrom n l).filter
            (fun p => p.1 ≠ i ∧ p.1 ≠ j)).map Prod.snd)
          + interiorMS (l.getD (i - n) rutaDefecto)
          + interiorMS (l.getD (j - n) rutaDefecto)
        = cobertura l := by
  intro l
  induction l with
  | nil => intro n i j _ _ _ h _; simp at h
  | cons r t ih =>
    intro n i j hij hni hnj hlt1 hlt2
    rw [List.enumFrom_cons, List.filter_cons]
    by_cases hcase1 : n = i
    · subst hcase1
      rw [if_neg (by simp)]
      have hred : (List.enumFrom (n + 1) t).filter (fun p => p.1 ≠ n ∧ p.1 ≠ j)
          = (List.enumFrom (n + 1) t).filter (fun p => p.1 ≠ j) := by
        apply List.filter_congr
        intro p hp
        obtain ⟨k, x⟩ := p
        have hk := (List.mem_enumFrom hp).1
        simp only [ne_eq, decide_eq_true_eq, decide_eq_decide]
        constructor
        · intro h
          exact h.2
        · intro h
          exact ⟨by omega, h⟩
      rw [hred]
      rw [Nat.sub_self, List.getD_cons_zero]
      have hjn : j - n = (j - (n + 1)) + 1 := by omega
      rw [hjn, List.getD_cons_succ]
      have hrec := cobertura_filter_one t (n + 1) j (by omega)
        (by simp only [List.length_cons] at hlt2; omega)
      rw [cobertura_cons]
      calc cobertura (((List.enumFrom (n + 1) t).filter
            (fun p => p.1 ≠ j)).map Prod.snd)
          + interiorMS r + interiorMS (t.getD (j - (n + 1)) rutaDefecto)
          = interiorMS r + (cobertura (((List.enumFrom (n + 1) t).filter
              (fun p => p.1 ≠ j)).map Prod.snd)
            + interiorMS (t.getD (j - (n + 1)) rutaDefecto)) := by abel
        _ = interiorMS r + cobertura t := by rw [hrec]
    · by_cases hcase2 : n = j
      · subst hcase2
        rw [if_neg (by simp)]
        have hred : (List.enumFrom (n + 1) t).filter
              (fun p => p.1 ≠ i ∧ p.1 ≠ n)
            = (List.enumFrom (n + 1) t).filter (fun p => p.1 ≠ i) := by
          apply List.filter_congr
          intro p hp
          obtain ⟨k, x⟩ := p
          have hk := (List.mem_enumFrom hp).1
          simp only [ne_eq, decide_eq_true_eq, decide_eq_decide]
          constructor
          · intro h
            exact h.1
          · intro h
            exact ⟨h, by omega⟩
        rw [hred]
        rw [Nat.sub_self, List.getD_cons_zero]
        have hin : i - n = (i - (n + 1)) + 1 := by omega
        rw [hin, List.getD_cons_succ]
        have hrec := cobertura_filter_one t (n + 1) i (by omega)
          (by simp only [List.length_cons] at hlt1; omega)
        rw [cobertura_cons]
        calc cobertura (((List.enumFrom (n + 1) t).filter
              (fun p => p.1 ≠ i)).map Prod.snd)
            + interiorMS (t.getD (i - (n + 1)) rutaDefecto) + interiorMS r
            = interiorMS r + (cobertura (((List.enumFrom (n + 1) t).filter
                (fun p => p.1 ≠ i)).map Prod.snd)
              + interiorMS (t.getD (i - (n + 1)) rutaDefecto)) := by abel
          _ = interiorMS r + cobertura t := by rw [hrec]
      · rw [if_pos (by
          simp only [ne_eq, decide_eq_true_eq]
          exact ⟨hcase1, hcase2⟩)]
        rw [List.map_cons, cobertura_cons]
        have hin : i - n = (i - (n + 1)) + 1 := by omega
        have hjn : j - n = (j - (n + 1)) + 1 := by omega
        rw [hin, hjn, List.getD_cons_succ, List.getD_cons_succ]
        have hrec := ih (n + 1) i j hij (by omega) (by omega)
          (by simp only [List.length_cons] at hlt1; omega)
          (by simp only [List.length_cons] at hlt2; omega)
        rw [cobertura_cons]
        calc interiorMS r + cobertura (((List.enumFrom (n + 1) t).filter
              (fun p => p.1 ≠ i ∧ p.1 ≠ j)).map Prod.snd)
            + interiorMS (t.getD (i - (n + 1)) rutaDefecto)
            + interiorMS (t.getD (j - (n + 1)) rutaDefecto)
            = interiorMS r + (cobertura (((List.enumFrom (n + 1) t).filter
                (fun p => p.1 ≠ i ∧ p.1 ≠ j)).map Prod.snd)
              + interiorMS (t.getD (i - (n + 1)) rutaDefecto)
              + interiorMS (t.getD (j - (n + 1)) rutaDefecto)) := by abel
          _ = interiorMS r + cobertura t := by rw [hrec]

lemma interior_ruta_merge (p1 p2 : List ℕ) (h1 : 2 ≤ p1.length)
    (h2 : 2 ≤ p2.length) :
    ((interior_ruta (p1.dropLast ++ p2.drop 1) : List ℕ) : Multiset ℕ)
      = ((interior_ruta p1 : List ℕ) : Multiset ℕ)
        + ((interior_ruta p2 : List ℕ) : Multiset ℕ) := by
  obtain ⟨a, t1, rfl⟩ := List.exists_cons_of_ne_nil
    (l := p1) (by intro h; subst h; simp at h1)
  have ht1 : t1 ≠ [] := by
    intro h
    subst h
    simp at h1
  have hd2 : p2.tail ≠ [] := by
    intro h
    have := congrArg List.length h
    simp only [List.length_tail, List.length_nil] at this
    omega
  rw [List.dropLast_cons_of_ne_nil ht1]
  have hshape : (a :: t1.dropLast) ++ p2.drop 1
      = a :: (t1.dropLast ++ p2.drop 1) := rfl
  rw [hshape]
  have hint : interior_ruta (a :: (t1.dropLast ++ p2.drop 1))
      = t1.dropLast ++ p2.tail.dropLast := by
    simp only [interior_ruta, List.drop_one, List.tail_cons]
    exact List.dropLast_append_of_ne_nil _ hd2
  rw [hint]
  have hint1 : interior_ruta (a :: t1) = t1.dropLast := by
    simp only [interior_ruta, List.drop_one, List.tail_cons]
  rw [hint1]
  have hint2 : interior_ruta p2 = p2.tail.dropLast := by
    simp only [interior_ruta, List.drop_one]
  rw [hint2]
  exact_mod_cast rfl

lemma consolidate_cobertura (m : ℕ → ℕ → ℚ) (puntos : List Punto)
    (capacidad_vehiculo : ℚ) (sol : List Ruta)
    (h2 : ∀ r ∈ sol, 2 ≤ r.puntos.length) :
    cobertura (consolidate m puntos capacidad_vehiculo sol) = cobertura sol := by
  unfold consolidate
  split
  · rename_i hlen
    dsimp only
    cases hb : buscar_par_consolidar capacidad_vehiculo
        (sol.enum.mergeSort (fun a b => decide (a.2.carga ≤ b.2.carga))) with
    | none => simp only [hb]
    | some pr =>
      obtain ⟨x1, x2⟩ := pr
      simp only [hb]
      have hinf := buscar_par_consolidar_infix capacidad_vehiculo _ x1 x2 hb
      have hperm := List.mergeSort_perm sol.enum
        (fun a b => decide (a.2.carga ≤ b.2.carga))
      have hsub := hinf.sublist
      have hx1 : x1 ∈ sol.enum := hperm.subset (hsub.subset (by simp))
      have hx2 : x2 ∈ sol.enum := hperm.subset (hsub.subset (by simp))
      have hfst : ((sol.enum.mergeSort
            (fun a b => decide (a.2.carga ≤ b.2.carga))).map Prod.fst).Nodup :=
        (hperm.map Prod.fst).nodup_iff.mpr (List.nodup_enum_map_fst sol)
      have hnodup12 := ((hinf.map Prod.fst).sublist).nodup hfst
      obtain ⟨i1, r1⟩ := x1
      obtain ⟨i2, r2⟩ := x2
      have hm1 := List.mem_enumFrom (show (i1, r1) ∈ List.enumFrom 0 sol from hx1)
      have hm2 := List.mem_enumFrom (show (i2, r2) ∈ List.enumFrom 0 sol from hx2)
      obtain ⟨-, hlt1, heq1⟩ := hm1
      obtain ⟨-, hlt2, heq2⟩ := hm2
      have hne : i1 ≠ i2 := by
        simp only [List.map_cons, List.map_nil, List.nodup_cons,
          List.mem_singleton, List.mem_cons, List.not_mem_nil, or_false] at hnodup12
        exact hnodup12.1
      have hgd1 : sol.getD i1 rutaDefecto = r1 := by
        rw [List.getD_eq_getElem _ _ (by omega)]
        have : r1 = sol[i1 - 0] := heq1
        simpa using this.symm
      have hgd2 : sol.getD i2 rutaDefecto = r2 := by
        rw [List.getD_eq_getElem _ _ (by omega)]
        have : r2 = sol[i2 - 0] := heq2
        simpa using this.symm
      have hr1mem : r1 ∈ sol := by
        rw [heq1]
        exact List.getElem_mem _
      have hr2mem : r2 ∈ sol := by
        rw [heq2]
        exact List.getElem_mem _
      have hL1 : 2 ≤ r1.puntos.length := h2 _ hr1mem
      have hL2 : 2 ≤ r2.puntos.length := h2 _ hr2mem
      rw [cobertura_append_una]
      have hmerge : interiorMS (crear_ruta m puntos
            (r1.puntos.dropLast ++ r2.puntos.drop 1))
          = interiorMS r1 + interiorMS r2 := by
        show ((interior_ruta (r1.puntos.dropLast ++ r2.puntos.drop 1) :
          List ℕ) : Multiset ℕ) = _
        exact interior_ruta_merge _ _ hL1 hL2
      rw [hmerge]
      have hfilter := cobertura_filter_two sol 0 i1 i2 hne (by omega) (by omega)
        (by simpa using hlt1) (by simpa using hlt2)
      simp only [Nat.sub_zero] at hfilter
      rw [hgd1, hgd2] at hfilter
      have henum : List.enumFrom 0 sol = sol.enum := rfl
      rw [henum] at hfilter
      rw [← add_assoc]
      exact hfilter
  · rfl

/-- C1: for every input solution (routes of length ≥ 2, as every depot-
bracketed route is) and every sequence of random draws, the candidate
returned by `generar_vecino` has exactly the same multiset of interior point
ids over all routes as the input: each of the five operators preserves
coverage, no-op moves included. -/
theorem generar_vecino_preserva_cobertura (m : ℕ → ℕ → ℚ) (puntos : List Punto)
    (capacidad_vehiculo : ℚ) (num_vehiculos : ℤ) (sol : List Ruta) (dr : Draws)
    (h2 : ∀ r ∈ sol, 2 ≤ r.puntos.length) :
    cobertura (generar_vecino m puntos capacidad_vehiculo num_vehiculos sol dr)
      = cobertura sol := by
  unfold generar_vecino
  split
  · dsimp only
    split
    · exact intra_swap_cobertura m puntos sol dr.d1 dr.d2 dr.d3
    · exact inter_swap_cobertura m puntos capacidad_vehiculo sol dr.d1 dr.d2 dr.d3 dr.d4
    · exact two_opt_cobertura m puntos sol dr.d1 dr.d2 dr.d3
    · exact relocate_cobertura m puntos capacidad_vehiculo sol dr.d1 dr.d2 dr.d3 dr.d4 h2
    · exact consolidate_cobertura m puntos capacidad_vehiculo sol h2
  · dsimp only
    split
    · exact intra_swap_cobertura m puntos sol dr.d1 dr.d2 dr.d3
    · exact inter_swap_cobertura m puntos capacidad_vehiculo sol dr.d1 dr.d2 dr.d3 dr.d4
    · exact two_opt_cobertura m puntos sol dr.d1 dr.d2 dr.d3
    · exact relocate_cobertura m puntos capacidad_vehiculo sol dr.d1 dr.d2 dr.d3 dr.d4 h2
    · exact consolidate_cobertura m puntos capacidad_vehiculo sol h2

/-- Witness for C1 at a concrete two-route solution and concrete draws. -/
theorem generar_vecino_preserva_cobertura_witness :
    (∀ r ∈ [Ruta.mk [0, 1, 2, 0] 0 12 0, Ruta.mk [0, 3, 0] 0 9 0],
        2 ≤ r.puntos.length)
    ∧ cobertura (generar_vecino (fun _ _ => 0) puntosEjemplo 100 2
        [Ruta.mk [0, 1, 2, 0] 0 12 0, Ruta.mk [0, 3, 0] 0 9 0]
        (Draws.mk 4 1 0 1 0))
      = cobertura [Ruta.mk [0, 1, 2, 0] 0 12 0, Ruta.mk [0, 3, 0] 0 9 0] :=
  ⟨by decide,
   generar_vecino_preserva_cobertura (fun _ _ => 0) puntosEjemplo 100 2
     [Ruta.mk [0, 1, 2, 0] 0 12 0, Ruta.mk [0, 3, 0] 0 9 0]
     (Draws.mk 4 1 0 1 0) (by decide)⟩

/-- C7: when `inter_swap` or `relocate` picks a move whose resulting load
(computed exactly as the code computes it, from the stored route loads and
the two demands) would exceed the vehicle capacity, the move is not applied
and the returned candidate equals the input solution — same routes, same
point sequences, same loads. -/
theorem movimientos_infactibles_no_op (m : ℕ → ℕ → ℚ) (puntos : List Punto)
    (capacidad_vehiculo : ℚ) (sol : List Ruta) (d1 d2 d3 d4 : ℕ) :
    (¬((sol.getD (d1 % sol.length) rutaDefecto).carga
          - (buscar_punto puntos ((sol.getD (d1 % sol.length) rutaDefecto).puntos.getD
              (1 + d3 % ((sol.getD (d1 % sol.length) rutaDefecto).puntos.length - 2)) 0)).demanda
          + (buscar_punto puntos ((sol.getD (d2 % sol.length) rutaDefecto).puntos.getD
              (1 + d4 % ((sol.getD (d2 % sol.length) rutaDefecto).puntos.length - 2)) 0)).demanda
          ≤ capacidad_vehiculo
        ∧ (sol.getD (d2 % sol.length) rutaDefecto).carga
          - (buscar_punto puntos ((sol.getD (d2 % sol.length) rutaDefecto).puntos.getD
              (1 + d4 % ((sol.getD (d2 % sol.length) rutaDefecto).puntos.length - 2)) 0)).demanda
          + (buscar_punto puntos ((sol.getD (d1 % sol.length) rutaDefecto).puntos.getD
              (1 + d3 % ((sol.getD (d1 % sol.length) rutaDefecto).puntos.length - 2)) 0)).demanda
          ≤ capacidad_vehiculo) →
      inter_swap m puntos capacidad_vehiculo sol d1 d2 d3 d4 = sol)
    ∧ (¬((sol.getD (d2 % sol.length) rutaDefecto).carga
          + (buscar_punto puntos ((sol.getD (d1 % sol.length) rutaDefecto).puntos.getD
              (1 + d3 % ((sol.getD (d1 % sol.length) rutaDefecto).puntos.length - 2)) 0)).demanda
          ≤ capacidad_vehiculo) →
      relocate m puntos capacidad_vehiculo sol d1 d2 d3 d4 = sol) := by
  constructor
  · intro hcap
    unfold inter_swap
    by_cases h1 : 2 ≤ sol.length
    · rw [if_pos h1]
      dsimp only
      by_cases hne : d1 % sol.length ≠ d2 % sol.length
      · rw [if_pos hne]
        by_cases h3 : 2 < (sol.getD (d1 % sol.length) rutaDefecto).puntos.length
            ∧ 2 < (sol.getD (d2 % sol.length) rutaDefecto).puntos.length
        · rw [if_pos h3, if_neg hcap]
        · rw [if_neg h3]
      · rw [if_neg hne]
    · rw [if_neg h1]
  · intro hcap
    unfold relocate
    by_cases h1 : 2 ≤ sol.length
    · rw [if_pos h1]
      dsimp only
      by_cases hne : d1 % sol.length ≠ d2 % sol.length
      · rw [if_pos hne]
        by_cases h3 : 3 < (sol.getD (d1 % sol.length) rutaDefecto).puntos.length
        · rw [if_pos h3, if_neg hcap]
        · rw [if_neg h3]
      · rw [if_neg hne]
    · rw [if_neg h1]

/-- Witness for C7: a concrete solution where the computed post-move loads
breach the capacity and both operators return the input unchanged. -/
theorem movimientos_infactibles_no_op_witness :
    ((¬(((10 : ℚ) - 5 + 7 ≤ 10) ∧ ((95 : ℚ) - 7 + 5 ≤ 10)))
      ∧ inter_swap (fun _ _ => 0) puntosEjemplo 10
          [Ruta.mk [0, 1, 0] 0 10 0, Ruta.mk [0, 2, 0] 0 95 0] 0 1 0 0
        = [Ruta.mk [0, 1, 0] 0 10 0, Ruta.mk [0, 2, 0] 0 95 0])
    ∧ ((¬((95 : ℚ) + 5 ≤ 10))
      ∧ relocate (fun _ _ => 0) puntosEjemplo 10
          [Ruta.mk [0, 1, 0] 0 10 0, Ruta.mk [0, 2, 0] 0 95 0] 0 1 0 0
        = [Ruta.mk [0, 1, 0] 0 10 0, Ruta.mk [0, 2, 0] 0 95 0]) := by
  have h := movimientos_infactibles_no_op (fun _ _ => 0) puntosEjemplo 10
    [Ruta.mk [0, 1, 0] 0 10 0, Ruta.mk [0, 2, 0] 0 95 0] 0 1 0 0
  constructor
  · constructor
    · norm_num
    · apply h.1
      simp [puntosEjemplo, buscar_punto, puntoDefecto, rutaDefecto,
        List.getD, List.find?]
      norm_num
  · constructor
    · norm_num
    · apply h.2
      simp [puntosEjemplo, buscar_punto, puntoDefecto, rutaDefecto,
        List.getD, List.find?]
      norm_num

/-- C8 counterexample: on the route `[0, 1, 2, 3, 0]` (interior positions
1, 2, 3) no draw makes `intra_swap` exchange positions 1 and 3: the code
draws both positions from `randint(1, len - 3)` = {1, 2}, so the last
interior position is never selected. -/
theorem intra_swap_no_alcanza_ultima_posicion :
    ¬ ∃ d1 d2 d3, ((intra_swap (fun _ _ => 0) puntosEjemplo
        [Ruta.mk [0, 1, 2, 3, 0] 0 0 0] d1 d2 d3).getD 0 rutaDefecto).puntos
      = [0, 3, 2, 1, 0] := by
  rintro ⟨d1, d2, d3, h⟩
  rcases Nat.mod_two_eq_zero_or_one d2 with h2 | h2 <;>
    rcases Nat.mod_two_eq_zero_or_one d3 with h3 | h3 <;>
    simp [intra_swap, Nat.mod_one, h2, h3, crear_ruta, rutaDefecto] at h

/-- C8 amended: when `intra_swap` selects a route with more than 3 ids, the
reachable swap positions are exactly those of `randint(1, len - 3)` — every
interior position except the last one; for every pair `p, q` in that range
there is a draw under which `intra_swap` returns the input with exactly the
positions `p` and `q` of that route exchanged. -/
theorem intra_swap_alcanza_posiciones (m : ℕ → ℕ → ℚ) (puntos : List Punto)
    (sol : List Ruta) (ridx p q : ℕ) (hr : ridx < sol.length)
    (hL : 3 < (sol.getD ridx rutaDefecto).puntos.length)
    (hp1 : 1 ≤ p) (hp2 : p ≤ (sol.getD ridx rutaDefecto).puntos.length - 3)
    (hq1 : 1 ≤ q) (hq2 : q ≤ (sol.getD ridx rutaDefecto).puntos.length - 3) :
    ∃ d1 d2 d3, intra_swap m puntos sol d1 d2 d3
      = sol.set ridx (crear_ruta m puntos
          (((sol.getD ridx rutaDefecto).puntos.set p
              ((sol.getD ridx rutaDefecto).puntos.getD q 0)).set q
            ((sol.getD ridx rutaDefecto).puntos.getD p 0))) := by
  refine ⟨ridx, p - 1, q - 1, ?_⟩
  unfold intra_swap
  rw [if_pos (show 0 < sol.length by omega)]
  dsimp only
  rw [Nat.mod_eq_of_lt hr]
  rw [if_pos hL]
  have e2 : 1 + (p - 1) % ((sol.getD ridx rutaDefecto).puntos.length - 3) = p := by
    rw [Nat.mod_eq_of_lt (by omega)]
    omega
  have e3 : 1 + (q - 1) % ((sol.getD ridx rutaDefecto).puntos.length - 3) = q := by
    rw [Nat.mod_eq_of_lt (by omega)]
    omega
  rw [e2, e3]

/-- Witness for the amended C8 at a concrete route and positions. -/
theorem intra_swap_alcanza_posiciones_witness :
    ((0 : ℕ) < 1 ∧ 3 < (([Ruta.mk [0, 1, 2, 3, 0] 0 0 0].getD 0
        rutaDefecto).puntos.length)
      ∧ (1 : ℕ) ≤ 1 ∧ 1 ≤ (([Ruta.mk [0, 1, 2, 3, 0] 0 0 0].getD 0
        rutaDefecto).puntos.length) - 3
      ∧ (1 : ℕ) ≤ 2 ∧ 2 ≤ (([Ruta.mk [0, 1, 2, 3, 0] 0 0 0].getD 0
        rutaDefecto).puntos.length) - 3)
    ∧ (∃ d1 d2 d3, intra_swap (fun _ _ => 0) puntosEjemplo
        [Ruta.mk [0, 1, 2, 3, 0] 0 0 0] d1 d2 d3
      = [Ruta.mk [0, 1, 2, 3, 0] 0 0 0].set 0 (crear_ruta (fun _ _ => 0)
          puntosEjemplo
          ((([Ruta.mk [0, 1, 2, 3, 0] 0 0 0].getD 0 rutaDefecto).puntos.set 1
              (([Ruta.mk [0, 1, 2, 3, 0] 0 0 0].getD 0 rutaDefecto).puntos.getD 2 0)).set 2
            (([Ruta.mk [0, 1, 2, 3, 0] 0 0 0].getD 0 rutaDefecto).puntos.getD 1 0)))) :=
  ⟨⟨by decide, by decide, by decide, by decide, by decide, by decide⟩,
   intra_swap_alcanza_posiciones (fun _ _ => 0) puntosEjemplo
     [Ruta.mk [0, 1, 2, 3, 0] 0 0 0] 0 1 2 (by decide) (by decide) (by decide)
     (by decide) (by decide) (by decide)⟩

lemma paso_sa_mejor_costo (expQ : ℚ → ℚ) (e : SimulatedAnnealingCVRP)
    (rand : ℕ → TrialRand) (T : ℚ) (st : SAState) :
    (paso_sa expQ e rand T st).mejor_costo ≤ st.mejor_costo := by
  unfold paso_sa
  dsimp only
  split
  · split
    · rename_i h
      exact le_of_lt h
    · exact le_refl _
  · exact le_refl _

lemma paso_sa_iteracion (expQ : ℚ → ℚ) (e : SimulatedAnnealingCVRP)
    (rand : ℕ → TrialRand) (T : ℚ) (st : SAState) :
    (paso_sa expQ e rand T st).iteracion = st.iteracion + 1 := by
  unfold paso_sa
  dsimp only
  split
  · split
    · rfl
    · rfl
  · rfl

lemma etapa_sa_mejor_costo (expQ : ℚ → ℚ) (e : SimulatedAnnealingCVRP)
    (rand : ℕ → TrialRand) (T : ℚ) (st : SAState) :
    (etapa_sa expQ e rand T st).mejor_costo ≤ st.mejor_costo := by
  unfold etapa_sa
  generalize List.range e.iteraciones_por_temperatura = l
  induction l generalizing st with
  | nil => exact le_refl _
  | cons a t ih =>
    simp only [List.foldl_cons]
    exact le_trans (ih _) (paso_sa_mejor_costo expQ e rand T st)

lemma etapa_sa_iteracion (expQ : ℚ → ℚ) (e : SimulatedAnnealingCVRP)
    (rand : ℕ → TrialRand) (T : ℚ) (st : SAState) :
    (etapa_sa expQ e rand T st).iteracion
      = st.iteracion + e.iteraciones_por_temperatura := by
  unfold etapa_sa
  have hgen : ∀ (l : List ℕ) (s : SAState),
      (l.foldl (fun s _ => paso_sa expQ e rand T s) s).iteracion
        = s.iteracion + l.length := by
    intro l
    induction l with
    | nil => intro s; simp
    | cons a t ih =>
      intro s
      simp only [List.foldl_cons, List.length_cons]
      rw [ih, paso_sa_iteracion]
      omega
  rw [hgen, List.length_range]

lemma bucle_sa_mejor_costo (expQ : ℚ → ℚ) (e : SimulatedAnnealingCVRP)
    (rand : ℕ → TrialRand) :
    ∀ (fuel : ℕ) (T : ℚ) (st : SAState),
      (bucle_sa expQ e rand fuel T st).mejor_costo ≤ st.mejor_costo := by
  intro fuel
  induction fuel with
  | zero => intro T st; exact le_refl _
  | succ f ih =>
    intro T st
    rw [bucle_sa]
    split
    · exact le_trans (ih _ _) (etapa_sa_mejor_costo expQ e rand T st)
    · exact le_refl _

lemma bucle_sa_iteracion (expQ : ℚ → ℚ) (e : SimulatedAnnealingCVRP)
    (rand : ℕ → TrialRand) :
    ∀ (fuel : ℕ) (T : ℚ) (st : SAState),
      (bucle_sa expQ e rand fuel T st).iteracion
        = st.iteracion + contar_etapas e.temperatura_minima
            e.factor_enfriamiento fuel T * e.iteraciones_por_temperatura := by
  intro fuel
  induction fuel with
  | zero =>
    intro T st
    simp [bucle_sa, contar_etapas]
  | succ f ih =>
    intro T st
    rw [bucle_sa, contar_etapas]
    by_cases h : e.temperatura_minima < T
    · rw [if_pos h, if_pos h, ih, etapa_sa_iteracion]
      ring
    · rw [if_neg h, if_neg h]
      simp

/-- C2: the tracked best cost never increases — across one trial, across any
run segment, and over a whole `ejecutar` run it never exceeds the cost of
the very first sweep solution. -/
theorem mejor_costo_no_crece (expQ : ℚ → ℚ) (atan2Q : ℚ → ℚ → ℚ)
    (sqrtQ : ℚ → ℚ) (e : SimulatedAnnealingCVRP) (rand : ℕ → TrialRand) :
    (∀ (T : ℚ) (st : SAState),
      (paso_sa expQ e rand T st).mejor_costo ≤ st.mejor_costo)
    ∧ (∀ (fuel : ℕ) (T : ℚ) (st : SAState),
      (bucle_sa expQ e rand fuel T st).mejor_costo ≤ st.mejor_costo)
    ∧ (∀ fuel : ℕ,
      (ejecutar expQ atan2Q sqrtQ e rand fuel).2.1
        ≤ calcular_costo_total (generar_solucion_inicial atan2Q sqrtQ
            e.matriz_distancias e.puntos e.capacidad_vehiculo e.num_vehiculos
            e.punto_inicio_id)) := by
  refine ⟨paso_sa_mejor_costo expQ e rand, bucle_sa_mejor_costo expQ e rand, ?_⟩
  intro fuel
  exact bucle_sa_mejor_costo expQ e rand fuel e.temperatura_inicial
    (estado_inicial atan2Q sqrtQ e)

/-- C9: `generar_solucion_inicial` consumes no randomness in the model (it
is a pure function of the engine state), so the `costo_inicial` statistic —
recomputed at line 785 by calling the constructor again — equals the cost of
the solution the run was actually seeded with. -/
theorem costo_inicial_consistente (expQ : ℚ → ℚ) (atan2Q : ℚ → ℚ → ℚ)
    (sqrtQ : ℚ → ℚ) (e : SimulatedAnnealingCVRP) (rand : ℕ → TrialRand)
    (fuel : ℕ) :
    (ejecutar expQ atan2Q sqrtQ e rand fuel).2.2.costo_inicial
      = calcular_costo_total ((estado_inicial atan2Q sqrtQ e).solucion_actual)
    ∧ (estado_inicial atan2Q sqrtQ e).solucion_actual
      = generar_solucion_inicial atan2Q sqrtQ e.matriz_distancias e.puntos
          e.capacidad_vehiculo e.num_vehiculos e.punto_inicio_id :=
  ⟨rfl, rfl⟩

/-- C10: when the cooling loop exits within the provided fuel, the iteration
counter at loop exit — reported as the `iteraciones_totales` statistic and
in the final 100 percent callback — equals the iteration total pre-computed
by simulating the cooling schedule. -/
theorem ejecutar_iteraciones_previstas (expQ : ℚ → ℚ) (atan2Q : ℚ → ℚ → ℚ)
    (sqrtQ : ℚ → ℚ) (e : SimulatedAnnealingCVRP) (rand : ℕ → TrialRand)
    (fuel : ℕ)
    (hterm : termina_enfriamiento e.temperatura_minima e.factor_enfriamiento
      fuel e.temperatura_inicial = true) :
    (ejecutar expQ atan2Q sqrtQ e rand fuel).2.2.iteraciones_totales
      = total_iteraciones_previstas e fuel := by
  have h := bucle_sa_iteracion expQ e rand fuel e.temperatura_inicial
    (estado_inicial atan2Q sqrtQ e)
  have h0 : (estado_inicial atan2Q sqrtQ e).iteracion = 0 := rfl
  rw [h0, Nat.zero_add] at h
  exact h

/-- Witness for C10 at a concrete engine whose schedule exits at once. -/
theorem ejecutar_iteraciones_previstas_witness :
    termina_enfriamiento (2 : ℚ) (1 / 2) 0 1 = true
    ∧ (ejecutar (fun _ => 1) (fun _ _ => 0) (fun _ => 0)
        { puntos := puntosEjemplo, capacidad_vehiculo := 100,
          num_vehiculos := 2, punto_inicio_id := 0,
          matriz_distancias := fun _ _ => 0, temperatura_inicial := 1,
          temperatura_minima := 2, factor_enfriamiento := 1 / 2,
          iteraciones_por_temperatura := 1 }
        (fun _ => TrialRand.mk (Draws.mk 0 0 0 0 0) 0) 0).2.2.iteraciones_totales
      = total_iteraciones_previstas
        { puntos := puntosEjemplo, capacidad_vehiculo := 100,
          num_vehiculos := 2, punto_inicio_id := 0,
          matriz_distancias := fun _ _ => 0, temperatura_inicial := 1,
          temperatura_minima := 2, factor_enfriamiento := 1 / 2,
          iteraciones_por_temperatura := 1 } 0 :=
  ⟨by decide,
   ejecutar_iteraciones_previstas (fun _ => 1) (fun _ _ => 0) (fun _ => 0)
     { puntos := puntosEjemplo, capacidad_vehiculo := 100,
       num_vehiculos := 2, punto_inicio_id := 0,
       matriz_distancias := fun _ _ => 0, temperatura_inicial := 1,
       temperatura_minima := 2, factor_enfriamiento := 1 / 2,
       iteraciones_por_temperatura := 1 }
     (fun _ => TrialRand.mk (Draws.mk 0 0 0 0 0) 0) 0 (by decide)⟩
